import Mathlib

/-
Shallow embedding of the T-HMI-Atari800 emulator core (an Atari 800 XL
emulator for ESP32 boards) and proofs about its documented behaviour.

Conventions used throughout this development:
- C++ uint8_t / uint16_t / uint32_t values are embedded as Nat; wherever the
  C++ type system truncates a value (assignment to a narrower field, an
  increment of an unsigned member, a narrowing argument conversion), the
  embedding applies the corresponding mask (x &&& 0xFF, % 256, % 65536, ...).
- int32_t / int16_t quantities that can meaningfully be negative
  (cycle budgets, audio filter state) are embedded as Int.
- Byte arrays (RAM, the two ROMs, segment data) are embedded as functions
  from Nat to Nat; pointwise update models a store.
- Output sinks that no part of the state machine ever reads back (the RGB565
  display bitmap written by the ANTIC draw routines, the PCM sample buffer
  filled by POKEY, the log calls) are omitted; every draw and sample routine
  is embedded with its full effect on all remaining state.
- Fallible or diverging control flow (the scanline while loop of
  Atari800Sys::run) is embedded with an explicit fuel parameter.
-/

namespace Atari800

/-! ### GTIA (src/GTIA.h, GTIA.cpp) -/

/-- GTIA chip state. Arrays of four registers (hposp, colpm, collision
matrices, triggers) are embedded as functions from the index to the stored
byte. -/
structure GTIAState where
  hposp : Nat → Nat
  hposm : Nat → Nat
  sizep : Nat → Nat
  sizem : Nat
  grafp : Nat → Nat
  grafm : Nat
  colpm : Nat → Nat
  colpf : Nat → Nat
  colbk : Nat
  prior : Nat
  vdelay : Nat
  gractl : Nat
  m2pf : Nat → Nat
  p2pf : Nat → Nat
  m2pl : Nat → Nat
  p2pl : Nat → Nat
  trig : Nat → Nat
  consol : Nat
  isPAL : Bool

/-- GTIA::reset. -/
def gtiaReset : GTIAState where
  hposp := fun _ => 0
  hposm := fun _ => 0
  sizep := fun _ => 0
  sizem := 0
  grafp := fun _ => 0
  grafm := 0
  colpm := fun i => if i = 0 then 0x38 else if i = 1 then 0x58 else if i = 2 then 0x88 else 0xC8
  colpf := fun i => if i = 0 then 0x28 else if i = 1 then 0x48 else if i = 2 then 0x94 else 0x46
  colbk := 0x00
  prior := 0
  vdelay := 0
  gractl := 0
  m2pf := fun _ => 0
  p2pf := fun _ => 0
  m2pl := fun _ => 0
  p2pl := fun _ => 0
  trig := fun _ => 1
  consol := 0x07
  isPAL := true

/-- GTIA::read (register offset is masked with 0x1F as in the source). -/
def gtiaRead (g : GTIAState) (addr : Nat) : Nat :=
  let a := addr &&& 0x1F
  if a = 0x00 then g.m2pf 0
  else if a = 0x01 then g.m2pf 1
  else if a = 0x02 then g.m2pf 2
  else if a = 0x03 then g.m2pf 3
  else if a = 0x04 then g.p2pf 0
  else if a = 0x05 then g.p2pf 1
  else if a = 0x06 then g.p2pf 2
  else if a = 0x07 then g.p2pf 3
  else if a = 0x08 then g.m2pl 0
  else if a = 0x09 then g.m2pl 1
  else if a = 0x0A then g.m2pl 2
  else if a = 0x0B then g.m2pl 3
  else if a = 0x0C then g.p2pl 0
  else if a = 0x0D then g.p2pl 1
  else if a = 0x0E then g.p2pl 2
  else if a = 0x0F then g.p2pl 3
  else if a = 0x10 then g.trig 0
  else if a = 0x11 then g.trig 1
  else if a = 0x12 then g.trig 2
  else if a = 0x13 then g.trig 3
  else if a = 0x14 then (if g.isPAL then 0x01 else 0x0F)
  else if a = 0x1F then g.consol ||| 0xF8
  else 0xFF

/-- GTIA::clearCollisions. -/
def gtiaClearCollisions (g : GTIAState) : GTIAState :=
  { g with m2pf := fun _ => 0, p2pf := fun _ => 0, m2pl := fun _ => 0, p2pl := fun _ => 0 }

/-- GTIA::write (val arrives through a uint8_t parameter, hence the mask). -/
def gtiaWrite (g : GTIAState) (addr val : Nat) : GTIAState :=
  let a := addr &&& 0x1F
  let v := val &&& 0xFF
  if a = 0x00 then { g with hposp := fun i => if i = 0 then v else g.hposp i }
  else if a = 0x01 then { g with hposp := fun i => if i = 1 then v else g.hposp i }
  else if a = 0x02 then { g with hposp := fun i => if i = 2 then v else g.hposp i }
  else if a = 0x03 then { g with hposp := fun i => if i = 3 then v else g.hposp i }
  else if a = 0x04 then { g with hposm := fun i => if i = 0 then v else g.hposm i }
  else if a = 0x05 then { g with hposm := fun i => if i = 1 then v else g.hposm i }
  else if a = 0x06 then { g with hposm := fun i => if i = 2 then v else g.hposm i }
  else if a = 0x07 then { g with hposm := fun i => if i = 3 then v else g.hposm i }
  else if a = 0x08 then { g with sizep := fun i => if i = 0 then v &&& 0x03 else g.sizep i }
  else if a = 0x09 then { g with sizep := fun i => if i = 1 then v &&& 0x03 else g.sizep i }
  else if a = 0x0A then { g with sizep := fun i => if i = 2 then v &&& 0x03 else g.sizep i }
  else if a = 0x0B then { g with sizep := fun i => if i = 3 then v &&& 0x03 else g.sizep i }
  else if a = 0x0C then { g with sizem := v }
  else if a = 0x0D then { g with grafp := fun i => if i = 0 then v else g.grafp i }
  else if a = 0x0E then { g with grafp := fun i => if i = 1 then v else g.grafp i }
  else if a = 0x0F then { g with grafp := fun i => if i = 2 then v else g.grafp i }
  else if a = 0x10 then { g with grafp := fun i => if i = 3 then v else g.grafp i }
  else if a = 0x11 then { g with grafm := v }
  else if a = 0x12 then { g with colpm := fun i => if i = 0 then v else g.colpm i }
  else if a = 0x13 then { g with colpm := fun i => if i = 1 then v else g.colpm i }
  else if a = 0x14 then { g with colpm := fun i => if i = 2 then v else g.colpm i }
  else if a = 0x15 then { g with colpm := fun i => if i = 3 then v else g.colpm i }
  else if a = 0x16 then { g with colpf := fun i => if i = 0 then v else g.colpf i }
  else if a = 0x17 then { g with colpf := fun i => if i = 1 then v else g.colpf i }
  else if a = 0x18 then { g with colpf := fun i => if i = 2 then v else g.colpf i }
  else if a = 0x19 then { g with colpf := fun i => if i = 3 then v else g.colpf i }
  else if a = 0x1A then { g with colbk := v }
  else if a = 0x1B then { g with prior := v }
  else if a = 0x1C then { g with vdelay := v }
  else if a = 0x1D then { g with gractl := v }
  else if a = 0x1E then gtiaClearCollisions g
  else g

/-- Modelled from the spec: GTIA::setCartridgePresent is called by
Atari800Sys::updateBanking but its definition is not under src (the GTIA
header in the snapshot predates it). Per the caller and the TRIG3
documentation in Atari800Sys.cpp, TRIG3 reads 0 when a cartridge or BASIC is
present and 1 otherwise. -/
def gtiaSetCartridgePresent (g : GTIAState) (present : Bool) : GTIAState :=
  { g with trig := fun i => if i = 3 then (if present then 0 else 1) else g.trig i }

/-! ### PIA (src/unnamed/part_006 header, part_009 implementation) -/

/-- PIA chip state (two ports with data direction and control registers,
plus the externally injected joystick direction bits). -/
structure PIAState where
  porta : Nat
  ddra : Nat
  pactl : Nat
  portb : Nat
  ddrb : Nat
  pbctl : Nat
  joy1 : Nat
  joy2 : Nat

/-- PIA::reset. -/
def piaReset : PIAState where
  porta := 0xFF
  ddra := 0x00
  pactl := 0x00
  portb := 0xFF
  ddrb := 0x00
  pbctl := 0x00
  joy1 := 0
  joy2 := 0

/-- PIA::read (register offset masked with 0x03; PIA_DDR is control bit
0x04 selecting the data register over the direction register). -/
def piaRead (p : PIAState) (addr : Nat) : Nat :=
  let a := addr &&& 0x03
  if a = 0x00 then
    if p.pactl &&& 0x04 ≠ 0 then
      let joy1Bits := if p.joy1 ≠ 0 then (p.joy1 ^^^ 0xFF) &&& 0x0F else 0x0F
      let joy2Bits := if p.joy2 ≠ 0 then ((p.joy2 ^^^ 0xFF) &&& 0x0F) <<< 4 else 0xF0
      (joy1Bits &&& (p.ddra ^^^ 0xFF)) ||| (joy2Bits &&& (p.ddra ^^^ 0xFF)) ||| (p.porta &&& p.ddra)
    else p.ddra
  else if a = 0x01 then
    if p.pbctl &&& 0x04 ≠ 0 then p.portb else p.ddrb
  else if a = 0x02 then p.pactl
  else if a = 0x03 then p.pbctl
  else 0xFF

/-- PIA::write. A port B data write only affects the bits configured as
outputs in ddrb. -/
def piaWrite (p : PIAState) (addr val : Nat) : PIAState :=
  let a := addr &&& 0x03
  let v := val &&& 0xFF
  if a = 0x00 then
    if p.pactl &&& 0x04 ≠ 0 then { p with porta := v } else { p with ddra := v }
  else if a = 0x01 then
    if p.pbctl &&& 0x04 ≠ 0 then
      { p with portb := (v &&& p.ddrb) ||| (p.portb &&& (p.ddrb ^^^ 0xFF)) }
    else { p with ddrb := v }
  else if a = 0x02 then { p with pactl := v }
  else { p with pbctl := v }

/-! ### POKEY (src/POKEY.h, POKEY.cpp) -/

/-- One POKEY audio channel (POKEYChannel). The lastOutput member is an
int16_t in the source, hence Int here. -/
structure POKEYChannel where
  audf : Nat
  audc : Nat
  divider : Nat
  period : Nat
  output : Bool
  lastOutput : Int

/-- POKEYChannel::reset. -/
def pokeyChannelReset : POKEYChannel where
  audf := 0
  audc := 0
  divider := 0
  period := 1
  output := false
  lastOutput := 0

/-- POKEY chip state. The PCM sample buffer and the float master-volume
pair are omitted: they are written, never read back by the emulation, and
do not appear in any claim. The actSampleIdx fill cursor is kept. -/
structure POKEYState where
  actSampleIdx : Nat
  ch0 : POKEYChannel
  ch1 : POKEYChannel
  ch2 : POKEYChannel
  ch3 : POKEYChannel
  audctl : Nat
  poly9Mode : Bool
  ch1_179mhz : Bool
  ch3_179mhz : Bool
  ch12_joined : Bool
  ch34_joined : Bool
  ch1_highpass : Bool
  ch2_highpass : Bool
  clock15khz : Bool
  poly4 : Nat
  poly5 : Nat
  poly9 : Nat
  poly17 : Nat
  polyStep : Nat
  irqen : Nat
  irqst : Nat
  kbcode : Nat
  keyPressed : Bool
  skctl : Nat
  skstat : Nat
  pot : Nat → Nat
  allpot : Nat
  serout : Nat
  serin : Nat
  random : Nat

/-- POKEY::reset. -/
def pokeyReset : POKEYState where
  actSampleIdx := 0
  ch0 := pokeyChannelReset
  ch1 := pokeyChannelReset
  ch2 := pokeyChannelReset
  ch3 := pokeyChannelReset
  audctl := 0
  poly9Mode := false
  ch1_179mhz := false
  ch3_179mhz := false
  ch12_joined := false
  ch34_joined := false
  ch1_highpass := false
  ch2_highpass := false
  clock15khz := false
  poly4 := 0x0F
  poly5 := 0x1F
  poly9 := 0x1FF
  poly17 := 0x1FFFF
  polyStep := 0
  irqen := 0
  irqst := 0xFF
  kbcode := 0xFF
  keyPressed := false
  skctl := 0
  skstat := 0xFF
  pot := fun _ => 228
  allpot := 0
  serout := 0
  serin := 0
  random := 0xFF

/-- One step of the 4-bit polynomial counter as computed inside
POKEY::updatePolynomials (taps at bits 3 and 2). -/
def poly4step (p : Nat) : Nat :=
  let bit4 := ((p >>> 3) ^^^ (p >>> 2)) &&& 1
  ((p <<< 1) ||| bit4) &&& 0x0F

/-- One step of the 5-bit polynomial counter as computed inside
POKEY::updatePolynomials (taps at bits 4 and 2). -/
def poly5step (p : Nat) : Nat :=
  let bit5 := ((p >>> 4) ^^^ (p >>> 2)) &&& 1
  ((p <<< 1) ||| bit5) &&& 0x1F

/-- One step of the 9-bit polynomial counter as computed inside
POKEY::updatePolynomials (taps at bits 8 and 3). -/
def poly9step (p : Nat) : Nat :=
  let bit9 := ((p >>> 8) ^^^ (p >>> 3)) &&& 1
  ((p <<< 1) ||| bit9) &&& 0x1FF

/-- One step of the 17-bit polynomial counter as computed inside
POKEY::updatePolynomials (taps at bits 16 and 11). -/
def poly17step (p : Nat) : Nat :=
  let bit17 := ((p >>> 16) ^^^ (p >>> 11)) &&& 1
  ((p <<< 1) ||| bit17) &&& 0x1FFFF

/-- POKEY::updatePolynomials: advance all four polynomial counters and
refresh the RANDOM register from the active long polynomial. -/
def pokeyUpdatePolynomials (p : POKEYState) : POKEYState :=
  let p9 := poly9step p.poly9
  let p17 := poly17step p.poly17
  { p with
    poly4 := poly4step p.poly4
    poly5 := poly5step p.poly5
    poly9 := p9
    poly17 := p17
    random := if p.poly9Mode then (p9 ^^^ (p9 >>> 1)) &&& 0xFF else (p17 ^^^ (p17 >>> 1)) &&& 0xFF }

/-- POKEY::updateChannelPeriods (POKEY_DIV_64 = 28, POKEY_DIV_15 = 114). -/
def pokeyUpdateChannelPeriods (p : POKEYState) : POKEYState :=
  let baseDiv := if p.clock15khz then 114 else 28
  let p :=
    if p.ch12_joined then
      let freq16 := (p.ch0.audf <<< 8) ||| p.ch1.audf
      let per0 := if p.ch1_179mhz then freq16 + 1 else (freq16 + 1) * baseDiv
      { p with ch0 := { p.ch0 with period := per0 }, ch1 := { p.ch1 with period := 0 } }
    else
      let per0 := if p.ch1_179mhz then p.ch0.audf + 4 else (p.ch0.audf + 1) * baseDiv
      { p with ch0 := { p.ch0 with period := per0 },
               ch1 := { p.ch1 with period := (p.ch1.audf + 1) * baseDiv } }
  if p.ch34_joined then
    let freq16 := (p.ch2.audf <<< 8) ||| p.ch3.audf
    let per2 := if p.ch3_179mhz then freq16 + 1 else (freq16 + 1) * baseDiv
    { p with ch2 := { p.ch2 with period := per2 }, ch3 := { p.ch3 with period := 0 } }
  else
    let per2 := if p.ch3_179mhz then p.ch2.audf + 4 else (p.ch2.audf + 1) * baseDiv
    { p with ch2 := { p.ch2 with period := per2 },
             ch3 := { p.ch3 with period := (p.ch3.audf + 1) * baseDiv } }

/-- Conversion of an int value stored into an int16_t variable (modular,
as on the target platform). -/
def int16wrap (x : Int) : Int :=
  (x + 32768) % 65536 - 32768

/-- The state effect of one channel inside POKEY::generateSample: the
divider countdown, square-wave toggle, distortion gating and the high-pass
lastOutput update. hp tells whether the high-pass filter applies to this
channel index. The sample value that the source accumulates into the
omitted output buffer is not returned. -/
def pokeyChannelStep (p : POKEYState) (hp : Bool) (c : POKEYChannel) : POKEYChannel :=
  if c.period = 0 then c
  else if c.audc &&& 0x10 ≠ 0 then c
  else if c.audc &&& 0x0F = 0 then c
  else
    let c1 := if c.divider > 0 then { c with divider := c.divider - 1 }
              else { c with divider := c.period, output := !c.output }
    let dist := (c1.audc >>> 4) &&& 0x07
    let longPoly : Bool := if p.poly9Mode then p.poly9 &&& 1 == 1 else p.poly17 &&& 1 == 1
    let finalOutput : Bool :=
      if dist = 0 then c1.output && (p.poly5 &&& 1 == 1) && longPoly
      else if dist = 1 then c1.output && (p.poly5 &&& 1 == 1)
      else if dist = 2 then c1.output && (p.poly5 &&& 1 == 1) && (p.poly4 &&& 1 == 1)
      else if dist = 3 then c1.output && (p.poly5 &&& 1 == 1)
      else if dist = 4 then c1.output && longPoly
      else if dist = 5 then c1.output
      else if dist = 6 then c1.output && (p.poly4 &&& 1 == 1)
      else c1.output
    let channelOut : Int := if finalOutput then Int.ofNat (c1.audc &&& 0x0F) * 2048 else 0
    let channelOut := if hp then int16wrap (channelOut - c1.lastOutput) else channelOut
    { c1 with lastOutput := channelOut }

/-- The state effect of POKEY::generateSample: the polynomial update
every 40th call, then the four channel steps (channels 1 and 2 are
subject to the high-pass flags). The returned int16 sample is dropped
together with the omitted sample buffer. -/
def pokeyGenerateSampleState (p : POKEYState) : POKEYState :=
  let p := { p with polyStep := (p.polyStep + 1) % 4294967296 }
  let p := if p.polyStep ≥ 40 then { pokeyUpdatePolynomials p with polyStep := 0 } else p
  let p := { p with ch0 := pokeyChannelStep p p.ch1_highpass p.ch0 }
  let p := { p with ch1 := pokeyChannelStep p p.ch2_highpass p.ch1 }
  let p := { p with ch2 := pokeyChannelStep p false p.ch2 }
  { p with ch3 := pokeyChannelStep p false p.ch3 }

/-- Modelled from the spec: NUMSAMPLESPERFRAME is AUDIO_SAMPLE_RATE / 50 in
POKEY.h, but the sound-driver header defining AUDIO_SAMPLE_RATE is not under
src; the spec names 44100 Hz as the design sample rate, giving 882 samples
per 50 Hz frame. -/
def NUMSAMPLESPERFRAME : Nat := 882

/-- One loop body of POKEY::fillBuffer: generate a sample (stored into the
omitted buffer) and advance the uint16_t fill cursor. -/
def pokeySampleStore (p : POKEYState) : POKEYState :=
  { pokeyGenerateSampleState p with actSampleIdx := (p.actSampleIdx + 1) % 65536 }

/-- POKEY::fillBuffer: generate samples until the cursor reaches the
target index for the given scanline (PAL: 312 lines per frame). -/
def pokeyFillBuffer (p : POKEYState) (scanline : Nat) : POKEYState :=
  let target := min (((scanline + 1) * NUMSAMPLESPERFRAME) / 312) NUMSAMPLESPERFRAME
  Nat.iterate pokeySampleStore (target - p.actSampleIdx) p

/-- POKEY::read. Reading RANDOM advances the polynomial counters, so the
read returns the value together with the successor chip state. -/
def pokeyRead (p : POKEYState) (addr : Nat) : Nat × POKEYState :=
  let a := addr &&& 0x0F
  if a ≤ 0x07 then (p.pot a, p)
  else if a = 0x08 then (p.allpot, p)
  else if a = 0x09 then (p.kbcode, p)
  else if a = 0x0A then
    let p1 := pokeyUpdatePolynomials p
    (p1.random, p1)
  else if a = 0x0D then (p.serin, p)
  else if a = 0x0E then (p.irqst, p)
  else if a = 0x0F then (p.skstat, p)
  else (0xFF, p)

/-- POKEY::write (register offset masked with 0x0F, value with 0xFF). -/
def pokeyWrite (p : POKEYState) (addr val : Nat) : POKEYState :=
  let a := addr &&& 0x0F
  let v := val &&& 0xFF
  if a = 0x00 then pokeyUpdateChannelPeriods { p with ch0 := { p.ch0 with audf := v } }
  else if a = 0x01 then { p with ch0 := { p.ch0 with audc := v } }
  else if a = 0x02 then pokeyUpdateChannelPeriods { p with ch1 := { p.ch1 with audf := v } }
  else if a = 0x03 then { p with ch1 := { p.ch1 with audc := v } }
  else if a = 0x04 then pokeyUpdateChannelPeriods { p with ch2 := { p.ch2 with audf := v } }
  else if a = 0x05 then { p with ch2 := { p.ch2 with audc := v } }
  else if a = 0x06 then pokeyUpdateChannelPeriods { p with ch3 := { p.ch3 with audf := v } }
  else if a = 0x07 then { p with ch3 := { p.ch3 with audc := v } }
  else if a = 0x08 then
    pokeyUpdateChannelPeriods
      { p with audctl := v
               poly9Mode := v &&& 0x80 ≠ 0
               ch1_179mhz := v &&& 0x40 ≠ 0
               ch3_179mhz := v &&& 0x20 ≠ 0
               ch12_joined := v &&& 0x10 ≠ 0
               ch34_joined := v &&& 0x08 ≠ 0
               ch1_highpass := v &&& 0x04 ≠ 0
               ch2_highpass := v &&& 0x02 ≠ 0
               clock15khz := v &&& 0x01 ≠ 0 }
  else if a = 0x09 then
    { p with ch0 := { p.ch0 with divider := p.ch0.period }
             ch1 := { p.ch1 with divider := p.ch1.period }
             ch2 := { p.ch2 with divider := p.ch2.period }
             ch3 := { p.ch3 with divider := p.ch3.period } }
  else if a = 0x0A then { p with skstat := 0xFF }
  else if a = 0x0B then { p with allpot := 0x00 }
  else if a = 0x0D then
    let p1 := { p with serout := v }
    if p1.irqen &&& 0x08 ≠ 0 then { p1 with irqst := p1.irqst &&& 0xF7 } else p1
  else if a = 0x0E then { p with irqen := v, irqst := p.irqst ||| ((v ^^^ 0xFF) &&& 0xFF) }
  else if a = 0x0F then
    if v = 0 then pokeyReset else { p with skctl := v }
  else p

/-- POKEY::setKeyCode: latch a key code, maintain the active-low SKSTAT
key-down bit (0x04) and lower IRQST bit 6 on a press when IRQEN bit 6 is
enabled. -/
def pokeySetKeyCode (p : POKEYState) (code : Nat) (pressed : Bool) : POKEYState :=
  if pressed then
    let p1 := { p with kbcode := code &&& 0xFF, keyPressed := true, skstat := p.skstat &&& 0xFB }
    if p1.irqen &&& 0x40 ≠ 0 then { p1 with irqst := p1.irqst &&& 0xBF } else p1
  else
    { p with keyPressed := false, skstat := p.skstat ||| 0x04 }

/-- POKEY::checkIRQ: true iff some enabled IRQ source is asserting
(IRQST is active-low). -/
def pokeyCheckIRQ (p : POKEYState) : Bool :=
  p.irqst &&& p.irqen != p.irqen

/-! ### ANTIC (src/ANTIC.h, ANTIC.cpp) -/

/-- ANTIC chip state. The output bitmap and display driver are omitted
(write-only sinks); selfTestPtr records whether the init call supplied the
optional pointer to the self-test banking flag (the call in
Atari800Sys::init passes three arguments, leaving it null). -/
structure ANTICState where
  dmactl : Nat
  chactl : Nat
  dlist : Nat
  hscrol : Nat
  vscrol : Nat
  pmbase : Nat
  chbase : Nat
  nmien : Nat
  nmist : Nat
  scanline : Nat
  displayListPC : Nat
  memScan : Nat
  modeLineCount : Nat
  currentMode : Nat
  inDisplayList : Bool
  dliPending : Bool
  vbiPending : Bool
  wsyncHalt : Bool
  rowInMode : Nat
  scanLinesPerMode : Nat
  isCharMode : Bool
  bytesPerLine : Nat
  charsPerLine : Nat
  memScanOffset : Nat
  xOffset : Nat
  pixelsPerByte : Nat
  hscrolEnabled : Bool
  vscrolEnabled : Bool
  vscrolLines : Nat
  dmaCycles : Nat
  selfTestPtr : Bool

/-- ANTIC::reset (selfTestPtr is the init-time wiring, not touched by
reset). -/
def anticReset (selfTestPtr : Bool) : ANTICState where
  dmactl := 0
  chactl := 0
  dlist := 0
  hscrol := 0
  vscrol := 0
  pmbase := 0
  chbase := 0
  nmien := 0
  nmist := 0x1F
  scanline := 0
  displayListPC := 0
  memScan := 0
  modeLineCount := 0
  currentMode := 0
  inDisplayList := false
  dliPending := false
  vbiPending := false
  wsyncHalt := false
  rowInMode := 0
  scanLinesPerMode := 0
  isCharMode := false
  bytesPerLine := 0
  charsPerLine := 0
  memScanOffset := 0
  xOffset := 0
  pixelsPerByte := 1
  hscrolEnabled := false
  vscrolEnabled := false
  vscrolLines := 0
  dmaCycles := 0
  selfTestPtr := selfTestPtr

/-- ANTIC::read (VCOUNT at 0x0B returns scanline / 2, NMIST at 0x0F). -/
def anticRead (a : ANTICState) (addr : Nat) : Nat :=
  let r := addr &&& 0x0F
  if r = 0x0B then (a.scanline >>> 1) &&& 0xFF
  else if r = 0x0C then 0x00
  else if r = 0x0D then 0x00
  else if r = 0x0F then a.nmist
  else 0xFF

/-- ANTIC::write. A WSYNC write (0x0A) halts the CPU until the scanline
ends; NMIRES (0x0F) clears the NMI status and both pending latches. -/
def anticWrite (a : ANTICState) (addr val : Nat) : ANTICState :=
  let r := addr &&& 0x0F
  let v := val &&& 0xFF
  if r = 0x00 then { a with dmactl := v }
  else if r = 0x01 then { a with chactl := v }
  else if r = 0x02 then { a with dlist := (a.dlist &&& 0xFF00) ||| v }
  else if r = 0x03 then { a with dlist := (a.dlist &&& 0x00FF) ||| ((v <<< 8) &&& 0xFFFF) }
  else if r = 0x04 then { a with hscrol := v &&& 0x0F }
  else if r = 0x05 then { a with vscrol := v &&& 0x0F }
  else if r = 0x07 then { a with pmbase := v }
  else if r = 0x09 then { a with chbase := v }
  else if r = 0x0A then { a with wsyncHalt := true }
  else if r = 0x0E then { a with nmien := v }
  else if r = 0x0F then { a with nmist := 0x1F, dliPending := false, vbiPending := false }
  else a

/-- ANTIC::nextScanline: clear the DMA tally, advance the scanline counter,
restart the display list and raise a VBI at frame end (SCANLINES_PAL = 312),
and release any WSYNC halt. -/
def anticNextScanline (a : ANTICState) : ANTICState :=
  let a := { a with dmaCycles := 0 }
  let a := { a with scanline := (a.scanline + 1) % 65536 }
  let a :=
    if a.scanline ≥ 312 then
      let a := { a with scanline := 0, displayListPC := a.dlist, inDisplayList := true,
                        modeLineCount := 0, rowInMode := 0 }
      if a.nmien &&& 0x40 ≠ 0 then { a with vbiPending := true, nmist := a.nmist &&& 0xBF }
      else a
    else a
  { a with wsyncHalt := false }

/-- ANTIC::checkDLI: one-shot read of the DLI pending latch. -/
def anticCheckDLI (a : ANTICState) : Bool × ANTICState :=
  if a.dliPending then (true, { a with dliPending := false }) else (false, a)

/-- ANTIC::checkVBI: one-shot read of the VBI pending latch. -/
def anticCheckVBI (a : ANTICState) : Bool × ANTICState :=
  if a.vbiPending then (true, { a with vbiPending := false }) else (false, a)

/-- The modeParams table of ANTIC.cpp: scanlines per mode row. -/
def modeParamsScanlines (m : Nat) : Nat :=
  if m = 2 then 8 else if m = 3 then 10 else if m = 4 then 8 else if m = 5 then 16
  else if m = 6 then 8 else if m = 7 then 16 else if m = 8 then 8 else if m = 9 then 4
  else if m = 10 then 4 else if m = 11 then 2 else if m = 12 then 1 else if m = 13 then 2
  else 1

/-- The modeParams table of ANTIC.cpp: screen bytes per mode row. -/
def modeParamsBytes (m : Nat) : Nat :=
  if m ≤ 1 then 0
  else if m ≤ 5 then 40 else if m ≤ 7 then 20 else if m ≤ 9 then 10
  else if m ≤ 12 then 20 else 40

/-- The modeParams table of ANTIC.cpp: character mode flag. -/
def modeParamsIsChar (m : Nat) : Bool :=
  2 ≤ m && m ≤ 7

/-- ANTIC::setModeLineParams: mode-row geometry from the mode number and
the DMACTL playfield-width bits (ATARI_WIDTH = 320). -/
def anticSetModeLineParams (a : ANTICState) (mode : Nat) : ANTICState :=
  let modeIdx := mode &&& 0x0F
  let standardBytes := modeParamsBytes modeIdx
  let ppb := if modeIdx = 6 ∨ modeIdx = 7 then 16 else 8
  let a := { a with scanLinesPerMode := modeParamsScanlines modeIdx,
                    isCharMode := modeParamsIsChar modeIdx, rowInMode := 0 }
  let pw := a.dmactl &&& 0x03
  if pw = 0x01 then
    let chars := standardBytes * 4 / 5
    { a with charsPerLine := chars, bytesPerLine := standardBytes, memScanOffset := 0,
             xOffset := (320 - chars * ppb) / 2 }
  else if pw = 0x02 then
    { a with bytesPerLine := standardBytes, charsPerLine := standardBytes,
             memScanOffset := 0, xOffset := 0 }
  else if pw = 0x03 then
    let bpl := standardBytes * 6 / 5
    { a with bytesPerLine := bpl, charsPerLine := bpl, memScanOffset := 0, xOffset := 0 }
  else
    { a with bytesPerLine := 0, charsPerLine := 0, memScanOffset := 0, xOffset := 0 }

/-! ### Atari800Sys (src/Atari800Sys.h, Atari800Sys.cpp)

The class inherits from CPU6502, whose source is not under src; the CPU
register set below follows the data model of the spec (pc, a, x, y, sp,
the seven flags, a halt signal and a per-instruction cycle counter), and
every CPU6502 member function that the system code calls is marked as
modelled from the spec at its definition. -/

/-- Complete system state: CPU registers, RAM, the two ROM images, the
banking flags and the four chips. RAM and the ROMs are byte functions; the
ROM pointers are installed once by init and are never null afterwards. -/
structure Sys where
  pc : Nat
  a : Nat
  x : Nat
  y : Nat
  sp : Nat
  cflag : Bool
  zflag : Bool
  dflag : Bool
  bflag : Bool
  vflag : Bool
  nflag : Bool
  iflag : Bool
  cpuhalted : Bool
  numofcycles : Int
  ram : Nat → Nat
  osRom : Nat → Nat
  basicRom : Nat → Nat
  osRomEnabled : Bool
  basicRomEnabled : Bool
  selfTestEnabled : Bool
  nmiActive : Bool
  cyclesThisScanline : Int
  cyclesPerScanline : Int
  antic : ANTICState
  gtia : GTIAState
  pokey : POKEYState
  pia : PIAState

/-- Atari800Sys::updateBanking: derive the three banking flags from PIA
port B (PORTB_OS_ROM = 0x01, PORTB_BASIC = 0x02, PORTB_SELFTEST = 0x80,
all active-low) and refresh the TRIG3 cartridge line. -/
def updateBanking (s : Sys) : Sys :=
  let portb := s.pia.portb
  let s := { s with
    osRomEnabled := portb &&& 0x01 = 0
    basicRomEnabled := portb &&& 0x02 = 0
    selfTestEnabled := portb &&& 0x80 = 0 }
  { s with gtia := gtiaSetCartridgePresent s.gtia s.basicRomEnabled }

/-- Atari800Sys::readIO: route a read in the hardware window to the owning
chip. Reading POKEY may advance chip state, so the successor state is
returned with the value. -/
def readIOArea (s : Sys) (addr : Nat) : Nat × Sys :=
  let reg := addr &&& 0xFF
  if 0xD000 ≤ addr ∧ addr < 0xD100 then (gtiaRead s.gtia (reg &&& 0x1F), s)
  else if 0xD200 ≤ addr ∧ addr < 0xD300 then
    let (v, pk) := pokeyRead s.pokey (reg &&& 0x0F)
    (v, { s with pokey := pk })
  else if 0xD300 ≤ addr ∧ addr < 0xD400 then (piaRead s.pia (reg &&& 0x03), s)
  else if 0xD400 ≤ addr ∧ addr < 0xD500 then (anticRead s.antic (reg &&& 0x0F), s)
  else (0xFF, s)

/-- Atari800Sys::getMem: the bus read. Mirrors the source decoding order:
RAM below 0xA000 with the self-test window, the BASIC window with the two
cartridge-header patches, the hardware window, then OS ROM or RAM above.
The static log counters do not affect the returned values and are
omitted. -/
def getMem (s : Sys) (addr : Nat) : Nat × Sys :=
  if addr < 0xA000 then
    if s.selfTestEnabled ∧ 0x5000 ≤ addr ∧ addr < 0x5800 then
      (s.osRom (addr - 0x5000 + 0x1000), s)
    else (s.ram addr, s)
  else if addr < 0xC000 then
    if s.basicRomEnabled then
      let v := s.basicRom (addr - 0xA000)
      let v := if addr = 0xBFFA then (if v = 0x00 then 0x04 else v) else v
      let v := if addr = 0xBFFD then (if s.basicRom 0x1FFD ≠ 0xA0 then 0xA0 else v) else v
      (v, s)
    else (s.ram addr, s)
  else if 0xD000 ≤ addr ∧ addr < 0xD800 then readIOArea s addr
  else if s.osRomEnabled then
    if 0xC000 ≤ addr ∧ addr < 0xD000 then (s.osRom (addr - 0xC000), s)
    else if 0xD800 ≤ addr then (s.osRom (addr - 0xC000), s)
    else (s.ram addr, s)
  else (s.ram addr, s)

/-- Atari800Sys::writeIO: route a write in the hardware window to the
owning chip; a PIA write re-evaluates the banking flags before returning. -/
def writeIOArea (s : Sys) (addr val : Nat) : Sys :=
  let reg := addr &&& 0xFF
  if 0xD000 ≤ addr ∧ addr < 0xD100 then { s with gtia := gtiaWrite s.gtia (reg &&& 0x1F) val }
  else if 0xD200 ≤ addr ∧ addr < 0xD300 then { s with pokey := pokeyWrite s.pokey (reg &&& 0x0F) val }
  else if 0xD300 ≤ addr ∧ addr < 0xD400 then
    updateBanking { s with pia := piaWrite s.pia (reg &&& 0x03) val }
  else if 0xD400 ≤ addr ∧ addr < 0xD500 then { s with antic := anticWrite s.antic (reg &&& 0x0F) val }
  else s

/-- Atari800Sys::setMem: the bus write. RAM accepts the store everywhere
outside the hardware window, including under both ROMs (write-under-ROM);
stores inside 0xD000..0xD7FF go to the chips only. The val parameter is a
uint8_t, hence the mask. -/
def setMem (s : Sys) (addr val : Nat) : Sys :=
  let v := val &&& 0xFF
  if addr < 0xA000 then { s with ram := fun i => if i = addr then v else s.ram i }
  else if addr < 0xC000 then { s with ram := fun i => if i = addr then v else s.ram i }
  else if addr < 0xD000 then { s with ram := fun i => if i = addr then v else s.ram i }
  else if addr < 0xD800 then writeIOArea s addr v
  else { s with ram := fun i => if i = addr then v else s.ram i }

/-- Modelled from the spec: CPU6502::pushtostack is not under src. Per the
spec, SP addresses the 0x0100..0x01FF page, a push stores through the bus
write at 0x0100 + SP and then decrements SP, wrapping within the page. -/
def pushtostack (s : Sys) (v : Nat) : Sys :=
  let s1 := setMem s (0x100 + (s.sp &&& 0xFF)) v
  { s1 with sp := (s1.sp + 255) % 256 }

/-- The status byte assembled by Atari800Sys::handleNMI before the push:
unused bit 0x20 always set, every flag (including B) copied from the CPU
flag members. -/
def nmiStatusByte (s : Sys) : Nat :=
  let st := 0x20
  let st := if s.nflag then st ||| 0x80 else st
  let st := if s.vflag then st ||| 0x40 else st
  let st := if s.bflag then st ||| 0x10 else st
  let st := if s.dflag then st ||| 0x08 else st
  let st := if s.iflag then st ||| 0x04 else st
  let st := if s.zflag then st ||| 0x02 else st
  if s.cflag then st ||| 0x01 else st

/-- The status byte assembled by Atari800Sys::handleIRQ: identical to the
NMI one except that the B bit is always left clear. -/
def irqStatusByte (s : Sys) : Nat :=
  let st := 0x20
  let st := if s.nflag then st ||| 0x80 else st
  let st := if s.vflag then st ||| 0x40 else st
  let st := if s.dflag then st ||| 0x08 else st
  let st := if s.iflag then st ||| 0x04 else st
  let st := if s.zflag then st ||| 0x02 else st
  if s.cflag then st ||| 0x01 else st

/-- Atari800Sys::handleNMI: refuse when the per-frame latch is set;
otherwise latch, push PC high, PC low and the status byte, load PC from
the vector at 0xFFFA/0xFFFB, set I and charge 7 cycles. -/
def handleNMI (s : Sys) : Bool × Sys :=
  if s.nmiActive then (false, s)
  else
    let s := { s with nmiActive := true }
    let s1 := pushtostack s (s.pc >>> 8)
    let s2 := pushtostack s1 (s1.pc &&& 0xFF)
    let s3 := pushtostack s2 (nmiStatusByte s2)
    let (lo, s4) := getMem s3 0xFFFA
    let (hi, s5) := getMem s4 0xFFFB
    let s6 := { s5 with pc := (lo ||| (hi <<< 8)) &&& 0xFFFF, iflag := true,
                        numofcycles := s5.numofcycles + 7 }
    (true, s6)

/-- Atari800Sys::handleIRQ: refuse when I is set; otherwise push PC and a
status byte with B clear, load PC from 0xFFFE/0xFFFF, set I and charge 7
cycles. -/
def handleIRQ (s : Sys) : Bool × Sys :=
  if s.iflag then (false, s)
  else
    let s1 := pushtostack s (s.pc >>> 8)
    let s2 := pushtostack s1 (s1.pc &&& 0xFF)
    let s3 := pushtostack s2 (irqStatusByte s2)
    let (lo, s4) := getMem s3 0xFFFE
    let (hi, s5) := getMem s4 0xFFFF
    let s6 := { s5 with pc := (lo ||| (hi <<< 8)) &&& 0xFFFF, iflag := true,
                        numofcycles := s5.numofcycles + 7 }
    (true, s6)

/-- The B-flag-set status byte assembled by Atari800Sys::cmd6502brk
(0x30 base: B and the unused bit). -/
def brkStatusByte (s : Sys) : Nat :=
  let st := 0x30
  let st := if s.nflag then st ||| 0x80 else st
  let st := if s.vflag then st ||| 0x40 else st
  let st := if s.dflag then st ||| 0x08 else st
  let st := if s.iflag then st ||| 0x04 else st
  let st := if s.zflag then st ||| 0x02 else st
  if s.cflag then st ||| 0x01 else st

/-- Atari800Sys::cmd6502brk: the BRK software interrupt. PC has already
passed the opcode; skip the padding byte, push PC and the B-set status,
vector through 0xFFFE/0xFFFF, set I and set the cycle count to 7. -/
def cmd6502brk (s : Sys) : Sys :=
  let s := { s with pc := (s.pc + 1) % 65536 }
  let s1 := pushtostack s (s.pc >>> 8)
  let s2 := pushtostack s1 (s1.pc &&& 0xFF)
  let s3 := pushtostack s2 (brkStatusByte s2)
  let (lo, s4) := getMem s3 0xFFFE
  let (hi, s5) := getMem s4 0xFFFF
  { s5 with pc := (lo ||| (hi <<< 8)) &&& 0xFFFF, iflag := true, numofcycles := 7 }

/-- The ANTIC half of Atari800Sys::checkInterrupts: consume a pending VBI,
or failing that a pending DLI, and dispatch the NMI when one was pending.
The short-circuit of the source (checkVBI() or-else checkDLI()) is kept:
a pending DLI is not consumed in a round that saw a pending VBI. -/
def anticNMIDispatch (s : Sys) : Sys :=
  let (vbi, a1) := anticCheckVBI s.antic
  let s1 := { s with antic := a1 }
  if vbi then (handleNMI s1).2
  else
    let (dli, a2) := anticCheckDLI s1.antic
    let s2 := { s1 with antic := a2 }
    if dli then (handleNMI s2).2 else s2

/-- Atari800Sys::checkInterrupts: the ANTIC NMI check followed by the
I-gated POKEY IRQ check. -/
def checkInterrupts (s : Sys) : Sys :=
  let s1 := anticNMIDispatch s
  if ¬ s1.iflag ∧ pokeyCheckIRQ s1.pokey then (handleIRQ s1).2 else s1

/-! ### ANTIC routines that touch system memory (ANTIC.cpp) -/

/-- ANTIC::readMemWithROM: a display-list or character fetch that sees the
self-test window (only when the init call wired the pointer) and the OS ROM
above 0xC000. -/
def anticReadMemWithROM (s : Sys) (addr : Nat) : Nat :=
  if s.antic.selfTestPtr ∧ s.selfTestEnabled ∧ 0x5000 ≤ addr ∧ addr < 0x5800 then
    s.osRom (addr - 0x5000 + 0x1000)
  else if 0xC000 ≤ addr then s.osRom (addr - 0xC000)
  else s.ram addr

/-- ANTIC::fetchDisplayListByte: when display-list DMA is enabled in
DMACTL, read the next display-list byte, advance the fetch pointer and add
one cycle to the DMA tally. -/
def fetchDisplayListByte (s : Sys) : Nat × Sys :=
  if s.antic.dmactl &&& 0x20 = 0 then (0, s)
  else
    let byte := anticReadMemWithROM s (s.antic.displayListPC &&& 0xFFFF)
    let a := { s.antic with displayListPC := (s.antic.displayListPC + 1) % 65536,
                            dmaCycles := (s.antic.dmaCycles + 1) % 256 }
    (byte, { s with antic := a })

/-- ANTIC::processDisplayList: at the start of a mode row, fetch the next
display-list instruction and honour its DLI, blank, jump, mode and LMS
semantics. -/
def processDisplayList (s : Sys) : Sys :=
  if s.antic.dmactl &&& 0x20 = 0 then s
  else if s.antic.modeLineCount ≠ 0 then s
  else
    let f0 := fetchDisplayListByte s
    let instruction := f0.1
    let s := f0.2
    let s :=
      if instruction &&& 0x80 ≠ 0 then
        if s.antic.nmien &&& 0x80 ≠ 0 then
          { s with antic := { s.antic with dliPending := true, nmist := s.antic.nmist &&& 0x7F } }
        else s
      else s
    let s := { s with antic := { s.antic with hscrolEnabled := instruction &&& 0x10 ≠ 0,
                                              vscrolEnabled := instruction &&& 0x20 ≠ 0 } }
    let mode := instruction &&& 0x0F
    if instruction &&& 0x0F = 0 ∧ instruction ≠ 0 then
      { s with antic := { s.antic with modeLineCount := ((instruction >>> 4) &&& 0x07) + 1,
                                       currentMode := 0 } }
    else if mode = 0x01 then
      let f1 := fetchDisplayListByte s
      let f2 := fetchDisplayListByte f1.2
      let s : Sys := { f2.2 with antic := { f2.2.antic with
        displayListPC := (f1.1 ||| (f2.1 <<< 8)) &&& 0xFFFF } }
      if instruction = 0x41 then
        let s : Sys := { s with antic := { s.antic with inDisplayList := false } }
        if s.antic.nmien &&& 0x40 ≠ 0 then
          { s with antic := { s.antic with vbiPending := true, nmist := s.antic.nmist &&& 0xBF } }
        else s
      else s
    else
      let s := { s with antic := anticSetModeLineParams s.antic mode }
      let s := { s with antic := { s.antic with currentMode := mode,
                                                modeLineCount := s.antic.scanLinesPerMode } }
      if instruction &&& 0x40 ≠ 0 then
        let f1 := fetchDisplayListByte s
        let f2 := fetchDisplayListByte f1.2
        { f2.2 with antic := { f2.2.antic with memScan := (f1.1 ||| (f2.1 <<< 8)) &&& 0xFFFF } }
      else s

/-- ANTIC::drawScanline. The pixel rendering of drawModeLine and
drawBlankLine writes only the omitted output bitmap; the remaining state
effects are the display-list walk and the mode-row bookkeeping
(VBLANK_START = 248). -/
def drawScanline (s : Sys) : Sys :=
  if s.antic.scanline < 8 ∨ s.antic.scanline ≥ 248 then s
  else if s.antic.dmactl &&& 0x03 = 0 then s
  else
    let s := if s.antic.inDisplayList then processDisplayList s else s
    if s.antic.modeLineCount > 0 then
      let a : ANTICState := { s.antic with rowInMode := (s.antic.rowInMode + 1) % 256,
                                           modeLineCount := s.antic.modeLineCount - 1 }
      let a := if a.isCharMode && decide (a.rowInMode ≥ a.scanLinesPerMode) then
                 { a with memScan := (a.memScan + a.bytesPerLine) % 65536 }
               else a
      let a := if a.isCharMode then a
               else { a with memScan := (a.memScan + a.bytesPerLine) % 65536 }
      { s with antic := a }
    else s

/-! ### The scanline loop of Atari800Sys::run (Atari800Sys.cpp) -/

/-- The per-scanline CPU budget as computed at the top of the run loop:
cyclesPerScanline minus the DMA tally held by ANTIC at that moment. -/
def scanlineBudget (s : Sys) : Int :=
  s.cyclesPerScanline - Int.ofNat s.antic.dmaCycles

/-- The inner instruction loop of Atari800Sys::run, parametrised by the
instruction interpreter exec (CPU6502::execute is not under src) and an
explicit fuel bound: while the scanline cycle count is below the budget,
honour a WSYNC halt, otherwise fetch an opcode, execute it, account its
cycles and check interrupts. -/
def cpuLoop (exec : Nat → Sys → Sys) : Nat → Int → Sys → Sys
  | 0, _, s => s
  | fuel + 1, target, s =>
    if s.cyclesThisScanline < target then
      if s.antic.wsyncHalt then { s with cyclesThisScanline := target }
      else
        let g := getMem { s with numofcycles := 0 } ({ s with numofcycles := 0 } : Sys).pc
        let s2 : Sys := { g.2 with pc := (g.2.pc + 1) % 65536 }
        let s3 := exec g.1 s2
        let s4 : Sys := { s3 with cyclesThisScanline := s3.cyclesThisScanline + s3.numofcycles }
        cpuLoop exec fuel target (checkInterrupts s4)
    else s

/-- One iteration of the outer scanline loop of Atari800Sys::run: reset the
scanline cycle counter, compute the budget, run the CPU, release WSYNC,
draw the scanline, generate audio, advance the scanline, and at frame end
submit the audio buffer and clear the NMI latch (the host-time frame pacing
and the profiling counters have no effect on this state and are omitted). -/
def scanlineIteration (exec : Nat → Sys → Sys) (fuel : Nat) (s : Sys) : Sys :=
  let s := { s with cyclesThisScanline := 0 }
  let target := scanlineBudget s
  let s := cpuLoop exec fuel target s
  let s := { s with antic := { s.antic with wsyncHalt := false } }
  let s := drawScanline s
  let s := { s with pokey := pokeyFillBuffer s.pokey s.antic.scanline }
  let s := { s with antic := anticNextScanline s.antic }
  if s.antic.scanline = 0 then
    { s with pokey := { s.pokey with actSampleIdx := 0 }, nmiActive := false }
  else s

/-! ### XEX segment loading (AtariLoader.cpp, loadXEX segment body) -/

/-- The per-segment body of AtariLoader::loadXEX (lines 136-174): copy the
segment bytes into RAM at startAddr..endAddr, then apply the INITAD
handling (if the segment covers 0x02E2-0x02E3 and the loaded init vector is
non-zero, record it and clear the two bytes) and the RUNAD read-out. The
returned options are the recorded init and run addresses. -/
def xexLoadSegment (ram : Nat → Nat) (startAddr endAddr : Nat) (segData : Nat → Nat) :
    (Nat → Nat) × Option Nat × Option Nat :=
  let ram1 := fun i => if startAddr ≤ i ∧ i ≤ endAddr then segData (i - startAddr) &&& 0xFF else ram i
  let initPart :=
    if startAddr ≤ 0x2E2 ∧ 0x2E3 ≤ endAddr then
      let initAddr := (ram1 0x2E2 ||| (ram1 0x2E3 <<< 8)) &&& 0xFFFF
      if initAddr ≠ 0 then
        ((fun i => if i = 0x2E2 ∨ i = 0x2E3 then 0 else ram1 i), some initAddr)
      else (ram1, (none : Option Nat))
    else (ram1, (none : Option Nat))
  let ram2 := initPart.1
  let runOpt :=
    if startAddr ≤ 0x2E0 ∧ 0x2E1 ≤ endAddr then
      let runAddr := (ram2 0x2E0 ||| (ram2 0x2E1 <<< 8)) &&& 0xFFFF
      if runAddr ≠ 0 then some runAddr else (none : Option Nat)
    else none
  (ram2, initPart.2, runOpt)

/-! ### Instruction interpreters for concrete runs

CPU6502::execute is not under src; the two interpreters below are the
concrete instances used to instantiate the loop theorems. -/

/-- Modelled from the spec: an instruction interpreter that treats every
opcode as a 2-cycle NOP (the spec permits exactly this for illegal
opcodes; 2 cycles is also the minimum instruction length of the 6502). -/
def execNop2 : Nat → Sys → Sys :=
  fun _ s => { s with numofcycles := 2 }

/-- Modelled from the spec: an instruction interpreter that executes
opcode 0x00 as BRK through the cmd6502brk override defined in
Atari800Sys.cpp (BRK consumes 7 cycles there) and treats every other
opcode as a 2-cycle NOP. -/
def execBRKNop : Nat → Sys → Sys :=
  fun op s => if op = 0 then cmd6502brk s else { s with numofcycles := 2 }

/-! ### Shared helper lemmas and a concrete base state -/

theorem and255_eq_mod (v : Nat) : v &&& 0xFF = v % 256 :=
  Nat.and_pow_two_sub_one_eq_mod v 8

theorem and255_of_lt (v : Nat) (h : v < 256) : v &&& 0xFF = v := by
  rw [and255_eq_mod]; exact Nat.mod_eq_of_lt h

theorem and3_eq_mod (v : Nat) : v &&& 0x03 = v % 4 :=
  Nat.and_pow_two_sub_one_eq_mod v 2

/-- A concrete system state assembled from the chip power-on states, used
to evaluate the theorems on explicit inputs. The OS ROM image holds the
NMI vector bytes 0x40 0x50 at its offsets 0x3FFA/0x3FFB and 0xEA
elsewhere; RAM is cleared. -/
def sysBase : Sys where
  pc := 0x1234
  a := 0
  x := 0
  y := 0
  sp := 0xFF
  cflag := false
  zflag := false
  dflag := false
  bflag := false
  vflag := false
  nflag := false
  iflag := true
  cpuhalted := false
  numofcycles := 0
  ram := fun _ => 0
  osRom := fun i => if i = 0x3FFA then 0x40 else if i = 0x3FFB then 0x50 else 0xEA
  basicRom := fun _ => 0
  osRomEnabled := true
  basicRomEnabled := false
  selfTestEnabled := false
  nmiActive := false
  cyclesThisScanline := 0
  cyclesPerScanline := 114
  antic := anticReset false
  gtia := gtiaReset
  pokey := pokeyReset
  pia := piaReset

/-! ### C6: the self-test window of the bus read -/

/-- Claim C6: for every address in 0x5000..0x57FF, the bus read returns the
OS-ROM byte at offset addr - 0x5000 + 0x1000 when the self-test window is
enabled, and the RAM byte otherwise. -/
theorem getMem_selftest_window (s : Sys) (addr : Nat)
    (h1 : 0x5000 ≤ addr) (h2 : addr < 0x5800) :
    (getMem s addr).1 =
      if s.selfTestEnabled then s.osRom (addr - 0x5000 + 0x1000) else s.ram addr := by
  unfold getMem
  rw [if_pos (show addr < 0xA000 by omega)]
  by_cases hst : s.selfTestEnabled
  · rw [if_pos ⟨hst, h1, h2⟩, if_pos hst]
  · rw [if_neg (fun h => hst h.1), if_neg hst]

/-- Witness for C6 at address 0x53FC with the self-test window enabled. -/
theorem getMem_selftest_window_witness :
    ((0x5000 : Nat) ≤ 0x53FC ∧ (0x53FC : Nat) < 0x5800) ∧
    (getMem { sysBase with selfTestEnabled := true } 0x53FC).1 =
      (if ({ sysBase with selfTestEnabled := true } : Sys).selfTestEnabled then
        ({ sysBase with selfTestEnabled := true } : Sys).osRom (0x53FC - 0x5000 + 0x1000)
      else ({ sysBase with selfTestEnabled := true } : Sys).ram 0x53FC) :=
  ⟨by decide, getMem_selftest_window { sysBase with selfTestEnabled := true } 0x53FC
    (by decide) (by decide)⟩

/-! ### C5: write-under-ROM and the hardware window -/

/-- The common RAM-store branch of setMem: the stored byte lands at the
target address, every other RAM byte and every chip and banking flag is
untouched. -/
theorem ramStoreSpec (s : Sys) (addr val : Nat) (hv : val < 256) (t : Sys)
    (ht : t = { s with ram := fun i => if i = addr then val &&& 0xFF else s.ram i }) :
    t.ram addr = val ∧ (∀ b, b ≠ addr → t.ram b = s.ram b) ∧
    t.antic = s.antic ∧ t.gtia = s.gtia ∧ t.pokey = s.pokey ∧ t.pia = s.pia ∧
    t.osRomEnabled = s.osRomEnabled ∧ t.basicRomEnabled = s.basicRomEnabled ∧
    t.selfTestEnabled = s.selfTestEnabled := by
  subst ht
  refine ⟨?_, ?_, rfl, rfl, rfl, rfl, rfl, rfl, rfl⟩
  · simp [and255_of_lt val hv]
  · intro b hb
    simp [hb]

/-- Atari800Sys::writeIO never touches RAM: each branch routes the value to
one chip (possibly re-evaluating the banking flags). -/
theorem writeIOArea_ram (s : Sys) (addr v : Nat) : (writeIOArea s addr v).ram = s.ram := by
  unfold writeIOArea updateBanking
  repeat' split
  all_goals rfl

/-- Claim C5: a bus write outside the 0xD000..0xD7FF hardware window stores
the byte into RAM at the target address, even under a visible ROM, leaving
every other RAM byte, all chip registers and the banking flags unchanged;
a bus write inside the hardware window leaves RAM untouched. -/
theorem setMem_write_under_rom (s : Sys) (addr val : Nat) (hv : val < 256) :
    ((addr < 0xD000 ∨ 0xD800 ≤ addr) →
      (setMem s addr val).ram addr = val ∧
      (∀ b, b ≠ addr → (setMem s addr val).ram b = s.ram b) ∧
      (setMem s addr val).antic = s.antic ∧ (setMem s addr val).gtia = s.gtia ∧
      (setMem s addr val).pokey = s.pokey ∧ (setMem s addr val).pia = s.pia ∧
      (setMem s addr val).osRomEnabled = s.osRomEnabled ∧
      (setMem s addr val).basicRomEnabled = s.basicRomEnabled ∧
      (setMem s addr val).selfTestEnabled = s.selfTestEnabled) ∧
    (0xD000 ≤ addr → addr < 0xD800 → (setMem s addr val).ram = s.ram) := by
  constructor
  · intro h
    unfold setMem
    by_cases h1 : addr < 0xA000
    · rw [if_pos h1]
      exact ramStoreSpec s addr val hv _ rfl
    · rw [if_neg h1]
      by_cases h2 : addr < 0xC000
      · rw [if_pos h2]
        exact ramStoreSpec s addr val hv _ rfl
      · rw [if_neg h2]
        by_cases h3 : addr < 0xD000
        · rw [if_pos h3]
          exact ramStoreSpec s addr val hv _ rfl
        · rw [if_neg h3]
          rw [if_neg (show ¬ addr < 0xD800 by omega)]
          exact ramStoreSpec s addr val hv _ rfl
  · intro hlo hhi
    unfold setMem
    rw [if_neg (show ¬ addr < 0xA000 by omega), if_neg (show ¬ addr < 0xC000 by omega),
        if_neg (show ¬ addr < 0xD000 by omega), if_pos hhi]
    exact writeIOArea_ram s addr (val &&& 0xFF)

/-- Witness for C5: a store of 0xAB under the OS ROM at 0xFFFC. -/
theorem setMem_write_under_rom_witness :
    ((0xAB : Nat) < 256) ∧
    (((0xFFFC : Nat) < 0xD000 ∨ (0xD800 : Nat) ≤ 0xFFFC) →
      (setMem sysBase 0xFFFC 0xAB).ram 0xFFFC = 0xAB ∧
      (∀ b, b ≠ 0xFFFC → (setMem sysBase 0xFFFC 0xAB).ram b = sysBase.ram b) ∧
      (setMem sysBase 0xFFFC 0xAB).antic = sysBase.antic ∧
      (setMem sysBase 0xFFFC 0xAB).gtia = sysBase.gtia ∧
      (setMem sysBase 0xFFFC 0xAB).pokey = sysBase.pokey ∧
      (setMem sysBase 0xFFFC 0xAB).pia = sysBase.pia ∧
      (setMem sysBase 0xFFFC 0xAB).osRomEnabled = sysBase.osRomEnabled ∧
      (setMem sysBase 0xFFFC 0xAB).basicRomEnabled = sysBase.basicRomEnabled ∧
      (setMem sysBase 0xFFFC 0xAB).selfTestEnabled = sysBase.selfTestEnabled) ∧
    ((0xD000 : Nat) ≤ 0xFFFC → (0xFFFC : Nat) < 0xD800 →
      (setMem sysBase 0xFFFC 0xAB).ram = sysBase.ram) :=
  ⟨by decide, setMem_write_under_rom sysBase 0xFFFC 0xAB (by decide)⟩


/-! ### C7: POKEY key press and IRQ line -/

/-- Claim C7: a key press latches the code into KBCODE, clears the
active-low SKSTAT key-down bit (0x04), lowers IRQST bit 6 exactly when
IRQEN bit 6 is set, checkIRQ asserts exactly when the enabled-and-asserting
mask differs from IRQEN, and in particular with IRQEN = 0x40 a key press
asserts the CPU IRQ line. -/
theorem pokey_keypress_irq (p : POKEYState) (c : Nat) (hc : c < 256) :
    (pokeySetKeyCode p c true).kbcode = c ∧
    (pokeySetKeyCode p c true).keyPressed = true ∧
    (pokeySetKeyCode p c true).skstat = p.skstat &&& 0xFB ∧
    (pokeySetKeyCode p c true).irqst =
      (if p.irqen &&& 0x40 ≠ 0 then p.irqst &&& 0xBF else p.irqst) ∧
    (pokeySetKeyCode p c true).irqen = p.irqen ∧
    (∀ q : POKEYState, pokeyCheckIRQ q = true ↔ q.irqst &&& q.irqen ≠ q.irqen) ∧
    (p.irqen = 0x40 → pokeyCheckIRQ (pokeySetKeyCode p c true) = true) := by
  have hiff : ∀ q : POKEYState, pokeyCheckIRQ q = true ↔ q.irqst &&& q.irqen ≠ q.irqen := by
    intro q
    unfold pokeyCheckIRQ
    exact bne_iff_ne
  by_cases hen : p.irqen &&& 0x40 ≠ 0
  · have hstep : pokeySetKeyCode p c true =
        { p with kbcode := c &&& 0xFF, keyPressed := true,
                 skstat := p.skstat &&& 0xFB, irqst := p.irqst &&& 0xBF } := by
      unfold pokeySetKeyCode
      rw [if_pos rfl]
      exact if_pos hen
    rw [hstep, if_pos hen]
    refine ⟨and255_of_lt c hc, rfl, rfl, rfl, rfl, hiff, ?_⟩
    intro h40
    rw [hiff]
    show (p.irqst &&& 0xBF) &&& p.irqen ≠ p.irqen
    rw [h40, Nat.land_assoc]
    rw [show (0xBF : Nat) &&& 0x40 = 0 from by decide, Nat.and_zero]
    decide
  · have hstep : pokeySetKeyCode p c true =
        { p with kbcode := c &&& 0xFF, keyPressed := true, skstat := p.skstat &&& 0xFB } := by
      unfold pokeySetKeyCode
      rw [if_pos rfl]
      exact if_neg hen
    rw [hstep, if_neg hen]
    refine ⟨and255_of_lt c hc, rfl, rfl, rfl, rfl, hiff, ?_⟩
    intro h40
    exact absurd (by rw [h40]; decide) hen

/-- Witness for C7: key code 0x3F pressed with IRQEN = 0x40 from the
power-on POKEY state. -/
theorem pokey_keypress_irq_witness :
    ((0x3F : Nat) < 256) ∧
    ((pokeySetKeyCode { pokeyReset with irqen := 0x40 } 0x3F true).kbcode = 0x3F ∧
     (pokeySetKeyCode { pokeyReset with irqen := 0x40 } 0x3F true).keyPressed = true ∧
     (pokeySetKeyCode { pokeyReset with irqen := 0x40 } 0x3F true).skstat =
       ({ pokeyReset with irqen := 0x40 } : POKEYState).skstat &&& 0xFB ∧
     (pokeySetKeyCode { pokeyReset with irqen := 0x40 } 0x3F true).irqst =
       (if ({ pokeyReset with irqen := 0x40 } : POKEYState).irqen &&& 0x40 ≠ 0 then
         ({ pokeyReset with irqen := 0x40 } : POKEYState).irqst &&& 0xBF
       else ({ pokeyReset with irqen := 0x40 } : POKEYState).irqst) ∧
     (pokeySetKeyCode { pokeyReset with irqen := 0x40 } 0x3F true).irqen =
       ({ pokeyReset with irqen := 0x40 } : POKEYState).irqen ∧
     (∀ q : POKEYState, pokeyCheckIRQ q = true ↔ q.irqst &&& q.irqen ≠ q.irqen) ∧
     (({ pokeyReset with irqen := 0x40 } : POKEYState).irqen = 0x40 →
       pokeyCheckIRQ (pokeySetKeyCode { pokeyReset with irqen := 0x40 } 0x3F true) = true)) :=
  ⟨by decide, pokey_keypress_irq { pokeyReset with irqen := 0x40 } 0x3F (by decide)⟩

/-! ### C4: PIA port B writes drive the ROM banking -/

/-- The OS-ROM decode of the bus read for 0xC000..0xCFFF. -/
theorem getMem_osrom_region (t : Sys) (b : Nat) (hb1 : 0xC000 ≤ b) (hb2 : b < 0xD000) :
    (getMem t b).1 = if t.osRomEnabled then t.osRom (b - 0xC000) else t.ram b := by
  unfold getMem
  rw [if_neg (show ¬ b < 0xA000 by omega), if_neg (show ¬ b < 0xC000 by omega),
      if_neg (show ¬ (0xD000 ≤ b ∧ b < 0xD800) by omega)]
  by_cases he : t.osRomEnabled
  · rw [if_pos he, if_pos ⟨hb1, hb2⟩, if_pos he]
  · rw [if_neg he, if_neg he]

/-- The OS-ROM decode of the bus read for 0xD800..0xFFFF. -/
theorem getMem_osrom_high (t : Sys) (b : Nat) (hb : 0xD800 ≤ b) :
    (getMem t b).1 = if t.osRomEnabled then t.osRom (b - 0xC000) else t.ram b := by
  unfold getMem
  rw [if_neg (show ¬ b < 0xA000 by omega), if_neg (show ¬ b < 0xC000 by omega),
      if_neg (show ¬ (0xD000 ≤ b ∧ b < 0xD800) by omega)]
  by_cases he : t.osRomEnabled
  · rw [if_pos he, if_neg (show ¬ (0xC000 ≤ b ∧ b < 0xD000) by omega), if_pos hb, if_pos he]
  · rw [if_neg he, if_neg he]

/-- Claim C4: a write to a PIA port B mirror re-evaluates the banking
flags from the resulting port-B value; when bit 0 of the resulting value is
clear, every read in 0xC000..0xCFFF (and the vector read at 0xFFFC)
returns the OS-ROM byte, and when bit 0 is set those reads return RAM. -/
theorem pia_portb_banking (s : Sys) (addr v : Nat)
    (ha1 : 0xD300 ≤ addr) (ha2 : addr < 0xD400) (ha3 : addr % 4 = 1) :
    ((writeIOArea s addr v).pia.portb =
      (if s.pia.pbctl &&& 0x04 ≠ 0 then
        ((v &&& 0xFF) &&& s.pia.ddrb) ||| (s.pia.portb &&& (s.pia.ddrb ^^^ 0xFF))
      else s.pia.portb)) ∧
    ((writeIOArea s addr v).osRomEnabled ↔ (writeIOArea s addr v).pia.portb &&& 0x01 = 0) ∧
    ((writeIOArea s addr v).basicRomEnabled ↔ (writeIOArea s addr v).pia.portb &&& 0x02 = 0) ∧
    ((writeIOArea s addr v).selfTestEnabled ↔ (writeIOArea s addr v).pia.portb &&& 0x80 = 0) ∧
    (∀ b, 0xC000 ≤ b → b < 0xD000 →
      (getMem (writeIOArea s addr v) b).1 =
        (if (writeIOArea s addr v).pia.portb &&& 0x01 = 0 then s.osRom (b - 0xC000)
         else s.ram b)) ∧
    ((getMem (writeIOArea s addr v) 0xFFFC).1 =
      (if (writeIOArea s addr v).pia.portb &&& 0x01 = 0 then s.osRom 0x3FFC
       else s.ram 0xFFFC)) := by
  have hreg : ((addr &&& 0xFF) &&& 0x03) &&& 0x03 = 1 := by
    rw [Nat.land_assoc, Nat.land_assoc]
    show addr &&& 0x03 = 1
    rw [and3_eq_mod]
    exact ha3
  have hpw : piaWrite s.pia ((addr &&& 0xFF) &&& 0x03) v =
      (if s.pia.pbctl &&& 0x04 ≠ 0 then
        { s.pia with portb := ((v &&& 0xFF) &&& s.pia.ddrb) |||
            (s.pia.portb &&& (s.pia.ddrb ^^^ 0xFF)) }
      else { s.pia with ddrb := v &&& 0xFF }) := by
    unfold piaWrite
    rw [if_neg (show ¬ (((addr &&& 0xFF) &&& 0x03) &&& 0x03 = 0x00) from by rw [hreg]; decide)]
    rw [if_pos hreg]
  have hw : writeIOArea s addr v =
      updateBanking { s with pia := piaWrite s.pia ((addr &&& 0xFF) &&& 0x03) v } := by
    unfold writeIOArea
    rw [if_neg (show ¬ (0xD000 ≤ addr ∧ addr < 0xD100) by omega),
        if_neg (show ¬ (0xD200 ≤ addr ∧ addr < 0xD300) by omega),
        if_pos ⟨ha1, ha2⟩]
  have hpia : (writeIOArea s addr v).pia =
      piaWrite s.pia ((addr &&& 0xFF) &&& 0x03) v := by
    rw [hw]
    rfl
  have hos : (writeIOArea s addr v).osRomEnabled =
      decide ((writeIOArea s addr v).pia.portb &&& 0x01 = 0) := by
    rw [hw]
    rfl
  have hbas : (writeIOArea s addr v).basicRomEnabled =
      decide ((writeIOArea s addr v).pia.portb &&& 0x02 = 0) := by
    rw [hw]
    rfl
  have hself : (writeIOArea s addr v).selfTestEnabled =
      decide ((writeIOArea s addr v).pia.portb &&& 0x80 = 0) := by
    rw [hw]
    rfl
  have hram : (writeIOArea s addr v).ram = s.ram := writeIOArea_ram s addr v
  have hrom : (writeIOArea s addr v).osRom = s.osRom := by
    rw [hw]
    rfl
  refine ⟨?_, ?_, ?_, ?_, ?_, ?_⟩
  · rw [hpia, hpw]
    by_cases hc : s.pia.pbctl &&& 0x04 ≠ 0
    · rw [if_pos hc, if_pos hc]
    · rw [if_neg hc, if_neg hc]
  · rw [hos]; exact decide_eq_true_iff
  · rw [hbas]; exact decide_eq_true_iff
  · rw [hself]; exact decide_eq_true_iff
  · intro b hb1 hb2
    rw [getMem_osrom_region _ b hb1 hb2, hos, hram, hrom]
    by_cases he : (writeIOArea s addr v).pia.portb &&& 0x01 = 0
    · rw [if_pos he, if_pos (by rw [decide_eq_true_eq]; exact he)]
    · rw [if_neg he, if_neg (by rw [decide_eq_true_eq]; exact he)]
  · rw [getMem_osrom_high _ 0xFFFC (by omega), hos, hram, hrom]
    by_cases he : (writeIOArea s addr v).pia.portb &&& 0x01 = 0
    · rw [if_pos he, if_pos (by rw [decide_eq_true_eq]; exact he)]
    · rw [if_neg he, if_neg (by rw [decide_eq_true_eq]; exact he)]


/-! ### C8: POKEY polynomial counter periods -/

/-- An iteration helper that forces each intermediate value to a literal by
pattern matching on it, keeping kernel reduction shallow on long runs. -/
def iterForce (f : Nat → Nat) : Nat → Nat → Nat
  | 0, p => p
  | n + 1, p =>
    match f p with
    | 0 => iterForce f n 0
    | q + 1 => iterForce f n (q + 1)

theorem iterForce_eq (f : Nat → Nat) : ∀ n p, iterForce f n p = Nat.iterate f n p := by
  intro n
  induction n with
  | zero => intro p; rfl
  | succ n ih =>
    intro p
    show (match f p with
          | 0 => iterForce f n 0
          | q + 1 => iterForce f n (q + 1)) = Nat.iterate f n (f p)
    rcases h : f p with _ | q
    · simpa using ih 0
    · simpa using ih (q + 1)

theorem iterChunk (f : Nat → Nat) (m n x y z : Nat)
    (h1 : iterForce f n x = y) (h2 : iterForce f m y = z) :
    iterForce f (m + n) x = z := by
  rw [iterForce_eq] at h1 h2
  rw [iterForce_eq, Function.iterate_add_apply, h1, h2]

set_option maxRecDepth 18000 in
set_option maxHeartbeats 4000000 in
/-- Claim C8: from the power-on polynomial-counter state the 17-bit counter
returns to its initial value after exactly 131071 steps and the 9-bit one
after exactly 511 (likewise 15 for the 4-bit and 31 for the 5-bit counter);
the per-counter steps are the ones taken inside POKEY::updatePolynomials,
and the counters return at no proper divisor of those counts (the four
LFSRs are maximal-length). -/
theorem pokey_poly_periods :
    Nat.iterate poly17step 131071 pokeyReset.poly17 = pokeyReset.poly17 ∧
    Nat.iterate poly9step 511 pokeyReset.poly9 = pokeyReset.poly9 ∧
    Nat.iterate poly4step 15 pokeyReset.poly4 = pokeyReset.poly4 ∧
    Nat.iterate poly5step 31 pokeyReset.poly5 = pokeyReset.poly5 ∧
    (∀ p : POKEYState,
      (pokeyUpdatePolynomials p).poly17 = poly17step p.poly17 ∧
      (pokeyUpdatePolynomials p).poly9 = poly9step p.poly9 ∧
      (pokeyUpdatePolynomials p).poly4 = poly4step p.poly4 ∧
      (pokeyUpdatePolynomials p).poly5 = poly5step p.poly5) ∧
    Nat.iterate poly17step 1 pokeyReset.poly17 ≠ pokeyReset.poly17 ∧
    Nat.iterate poly9step 7 pokeyReset.poly9 ≠ pokeyReset.poly9 ∧
    Nat.iterate poly9step 73 pokeyReset.poly9 ≠ pokeyReset.poly9 ∧
    Nat.iterate poly4step 3 pokeyReset.poly4 ≠ pokeyReset.poly4 ∧
    Nat.iterate poly4step 5 pokeyReset.poly4 ≠ pokeyReset.poly4 ∧
    Nat.iterate poly5step 1 pokeyReset.poly5 ≠ pokeyReset.poly5 := by
  refine ⟨?_, ?_, ?_, ?_, fun p => ⟨rfl, rfl, rfl, rfl⟩, ?_, ?_, ?_, ?_, ?_, ?_⟩
  · show Nat.iterate poly17step 131071 0x1FFFF = 0x1FFFF
    rw [← iterForce_eq]
    have h1 : iterForce poly17step 4095 0x1FFFF = 0x1DA1A := by decide
    have h2 : iterForce poly17step 4095 0x1DA1A = 0xC6EA := by decide
    have h3 : iterForce poly17step 4095 0xC6EA = 0x49C := by decide
    have h4 : iterForce poly17step 4095 0x49C = 0x1871D := by decide
    have h5 : iterForce poly17step 4095 0x1871D = 0xA1BB := by decide
    have h6 : iterForce poly17step 4095 0xA1BB = 0xC0E4 := by decide
    have h7 : iterForce poly17step 4095 0xC0E4 = 0xF7F0 := by decide
    have h8 : iterForce poly17step 4095 0xF7F0 = 0xE01C := by decide
    have h9 : iterForce poly17step 4095 0xE01C = 0x13B8C := by decide
    have h10 : iterForce poly17step 4095 0x13B8C = 0x169F2 := by decide
    have h11 : iterForce poly17step 4095 0x169F2 = 0x103FF := by decide
    have h12 : iterForce poly17step 4095 0x103FF = 0x1843F := by decide
    have h13 : iterForce poly17step 4095 0x1843F = 0x1CB42 := by decide
    have h14 : iterForce poly17step 4095 0x1CB42 = 0x7360 := by decide
    have h15 : iterForce poly17step 4095 0x7360 = 0x1B547 := by decide
    have h16 : iterForce poly17step 4095 0x1B547 = 0x1BDF0 := by decide
    have h17 : iterForce poly17step 4095 0x1BDF0 = 0x1F1CA := by decide
    have h18 : iterForce poly17step 4095 0x1F1CA = 0xBBEB := by decide
    have h19 : iterForce poly17step 4095 0xBBEB = 0x1C9 := by decide
    have h20 : iterForce poly17step 4095 0x1C9 = 0x1AD52 := by decide
    have h21 : iterForce poly17step 4095 0x1AD52 = 0x17C56 := by decide
    have h22 : iterForce poly17step 4095 0x17C56 = 0x7F07 := by decide
    have h23 : iterForce poly17step 4095 0x7F07 = 0x13C18 := by decide
    have h24 : iterForce poly17step 4095 0x13C18 = 0x1ECE7 := by decide
    have h25 : iterForce poly17step 4095 0x1ECE7 = 0xB98E := by decide
    have h26 : iterForce poly17step 4095 0xB98E = 0x1C498 := by decide
    have h27 : iterForce poly17step 4095 0x1C498 = 0x1EFF := by decide
    have h28 : iterForce poly17step 4095 0x1EFF = 0xD374 := by decide
    have h29 : iterForce poly17step 4095 0xD374 = 0x1F278 := by decide
    have h30 : iterForce poly17step 4095 0x1F278 = 0x2495 := by decide
    have h31 : iterForce poly17step 4095 0x2495 = 0x19EA7 := by decide
    have h32 : iterForce poly17step 4095 0x19EA7 = 0xE7C6 := by decide
    have h33 : iterForce poly17step 31 0xE7C6 = 0x1FFFF := by decide
    have a1 : iterForce poly17step 4095 0x1FFFF = 0x1DA1A := h1
    have a2 : iterForce poly17step 8190 0x1FFFF = 0xC6EA := iterChunk poly17step 4095 4095 0x1FFFF 0x1DA1A 0xC6EA a1 h2
    have a3 : iterForce poly17step 12285 0x1FFFF = 0x49C := iterChunk poly17step 4095 8190 0x1FFFF 0xC6EA 0x49C a2 h3
    have a4 : iterForce poly17step 16380 0x1FFFF = 0x1871D := iterChunk poly17step 4095 12285 0x1FFFF 0x49C 0x1871D a3 h4
    have a5 : iterForce poly17step 20475 0x1FFFF = 0xA1BB := iterChunk poly17step 4095 16380 0x1FFFF 0x1871D 0xA1BB a4 h5
    have a6 : iterForce poly17step 24570 0x1FFFF = 0xC0E4 := iterChunk poly17step 4095 20475 0x1FFFF 0xA1BB 0xC0E4 a5 h6
    have a7 : iterForce poly17step 28665 0x1FFFF = 0xF7F0 := iterChunk poly17step 4095 24570 0x1FFFF 0xC0E4 0xF7F0 a6 h7
    have a8 : iterForce poly17step 32760 0x1FFFF = 0xE01C := iterChunk poly17step 4095 28665 0x1FFFF 0xF7F0 0xE01C a7 h8
    have a9 : iterForce poly17step 36855 0x1FFFF = 0x13B8C := iterChunk poly17step 4095 32760 0x1FFFF 0xE01C 0x13B8C a8 h9
    have a10 : iterForce poly17step 40950 0x1FFFF = 0x169F2 := iterChunk poly17step 4095 36855 0x1FFFF 0x13B8C 0x169F2 a9 h10
    have a11 : iterForce poly17step 45045 0x1FFFF = 0x103FF := iterChunk poly17step 4095 40950 0x1FFFF 0x169F2 0x103FF a10 h11
    have a12 : iterForce poly17step 49140 0x1FFFF = 0x1843F := iterChunk poly17step 4095 45045 0x1FFFF 0x103FF 0x1843F a11 h12
    have a13 : iterForce poly17step 53235 0x1FFFF = 0x1CB42 := iterChunk poly17step 4095 49140 0x1FFFF 0x1843F 0x1CB42 a12 h13
    have a14 : iterForce poly17step 57330 0x1FFFF = 0x7360 := iterChunk poly17step 4095 53235 0x1FFFF 0x1CB42 0x7360 a13 h14
    have a15 : iterForce poly17step 61425 0x1FFFF = 0x1B547 := iterChunk poly17step 4095 57330 0x1FFFF 0x7360 0x1B547 a14 h15
    have a16 : iterForce poly17step 65520 0x1FFFF = 0x1BDF0 := iterChunk poly17step 4095 61425 0x1FFFF 0x1B547 0x1BDF0 a15 h16
    have a17 : iterForce poly17step 69615 0x1FFFF = 0x1F1CA := iterChunk poly17step 4095 65520 0x1FFFF 0x1BDF0 0x1F1CA a16 h17
    have a18 : iterForce poly17step 73710 0x1FFFF = 0xBBEB := iterChunk poly17step 4095 69615 0x1FFFF 0x1F1CA 0xBBEB a17 h18
    have a19 : iterForce poly17step 77805 0x1FFFF = 0x1C9 := iterChunk poly17step 4095 73710 0x1FFFF 0xBBEB 0x1C9 a18 h19
    have a20 : iterForce poly17step 81900 0x1FFFF = 0x1AD52 := iterChunk poly17step 4095 77805 0x1FFFF 0x1C9 0x1AD52 a19 h20
    have a21 : iterForce poly17step 85995 0x1FFFF = 0x17C56 := iterChunk poly17step 4095 81900 0x1FFFF 0x1AD52 0x17C56 a20 h21
    have a22 : iterForce poly17step 90090 0x1FFFF = 0x7F07 := iterChunk poly17step 4095 85995 0x1FFFF 0x17C56 0x7F07 a21 h22
    have a23 : iterForce poly17step 94185 0x1FFFF = 0x13C18 := iterChunk poly17step 4095 90090 0x1FFFF 0x7F07 0x13C18 a22 h23
    have a24 : iterForce poly17step 98280 0x1FFFF = 0x1ECE7 := iterChunk poly17step 4095 94185 0x1FFFF 0x13C18 0x1ECE7 a23 h24
    have a25 : iterForce poly17step 102375 0x1FFFF = 0xB98E := iterChunk poly17step 4095 98280 0x1FFFF 0x1ECE7 0xB98E a24 h25
    have a26 : iterForce poly17step 106470 0x1FFFF = 0x1C498 := iterChunk poly17step 4095 102375 0x1FFFF 0xB98E 0x1C498 a25 h26
    have a27 : iterForce poly17step 110565 0x1FFFF = 0x1EFF := iterChunk poly17step 4095 106470 0x1FFFF 0x1C498 0x1EFF a26 h27
    have a28 : iterForce poly17step 114660 0x1FFFF = 0xD374 := iterChunk poly17step 4095 110565 0x1FFFF 0x1EFF 0xD374 a27 h28
    have a29 : iterForce poly17step 118755 0x1FFFF = 0x1F278 := iterChunk poly17step 4095 114660 0x1FFFF 0xD374 0x1F278 a28 h29
    have a30 : iterForce poly17step 122850 0x1FFFF = 0x2495 := iterChunk poly17step 4095 118755 0x1FFFF 0x1F278 0x2495 a29 h30
    have a31 : iterForce poly17step 126945 0x1FFFF = 0x19EA7 := iterChunk poly17step 4095 122850 0x1FFFF 0x2495 0x19EA7 a30 h31
    have a32 : iterForce poly17step 131040 0x1FFFF = 0xE7C6 := iterChunk poly17step 4095 126945 0x1FFFF 0x19EA7 0xE7C6 a31 h32
    exact iterChunk poly17step 31 131040 0x1FFFF 0xE7C6 0x1FFFF a32 h33
  · show Nat.iterate poly9step 511 0x1FF = 0x1FF
    rw [← iterForce_eq]
    decide
  · show Nat.iterate poly4step 15 0x0F = 0x0F
    rw [← iterForce_eq]
    decide
  · show Nat.iterate poly5step 31 0x1F = 0x1F
    rw [← iterForce_eq]
    decide
  · show Nat.iterate poly17step 1 0x1FFFF ≠ 0x1FFFF
    rw [← iterForce_eq]
    decide
  · show Nat.iterate poly9step 7 0x1FF ≠ 0x1FF
    rw [← iterForce_eq]
    decide
  · show Nat.iterate poly9step 73 0x1FF ≠ 0x1FF
    rw [← iterForce_eq]
    decide
  · show Nat.iterate poly4step 3 0x0F ≠ 0x0F
    rw [← iterForce_eq]
    decide
  · show Nat.iterate poly4step 5 0x0F ≠ 0x0F
    rw [← iterForce_eq]
    decide
  · show Nat.iterate poly5step 1 0x1F ≠ 0x1F
    rw [← iterForce_eq]
    decide

/-! ### C9: XEX segment loading -/

/-- Counterexample for C9 as stated: a segment covering INITAD
(0x02E2..0x02E3) with a non-zero init vector does not leave RAM equal to
the input bytes in the loaded range; the loader clears the two INITAD
bytes after recording the vector. -/
theorem xexLoadSegment_counterexample :
    ((fun i => if i = 0 then 0x34 else 0x12) 0 = 0x34) ∧
    (xexLoadSegment (fun _ => 0) 0x2E2 0x2E3 (fun i => if i = 0 then 0x34 else 0x12)).1 0x2E2
      = 0 ∧
    ¬ (xexLoadSegment (fun _ => 0) 0x2E2 0x2E3 (fun i => if i = 0 then 0x34 else 0x12)).1 0x2E2
      = 0x34 := by
  refine ⟨rfl, ?_, ?_⟩ <;> decide

/-- Claim C9 as amended: loading a segment with address range a..b leaves
every RAM byte in the range equal to the corresponding input byte - except
that the two INITAD bytes 0x02E2..0x02E3 are cleared to zero when the
segment covers both of them and the init vector it loaded there is
non-zero - and leaves every RAM byte outside a..b unchanged. -/
theorem xexLoadSegment_frame (ram : Nat → Nat) (a b : Nat) (d : Nat → Nat)
    (hab : a ≤ b) (hd : ∀ j, d j < 256) :
    (∀ i, a ≤ i → i ≤ b →
      (xexLoadSegment ram a b d).1 i =
        (if (i = 0x2E2 ∨ i = 0x2E3) ∧ a ≤ 0x2E2 ∧ 0x2E3 ≤ b ∧
            (d (0x2E2 - a) ||| (d (0x2E3 - a) <<< 8)) &&& 0xFFFF ≠ 0 then 0
         else d (i - a))) ∧
    (∀ i, i < a ∨ b < i → (xexLoadSegment ram a b d).1 i = ram i) := by
  have hram1 : ∀ i, a ≤ i → i ≤ b →
      (if a ≤ i ∧ i ≤ b then d (i - a) &&& 0xFF else ram i) = d (i - a) := by
    intro i h1 h2
    rw [if_pos ⟨h1, h2⟩, and255_of_lt _ (hd _)]
  constructor
  · intro i hi1 hi2
    by_cases hcov : a ≤ 0x2E2 ∧ 0x2E3 ≤ b
    · simp only [xexLoadSegment]
      rw [if_pos hcov, hram1 0x2E2 hcov.1 (by omega), hram1 0x2E3 (by omega) hcov.2]
      by_cases hinit : (d (0x2E2 - a) ||| (d (0x2E3 - a) <<< 8)) &&& 0xFFFF ≠ 0
      · rw [if_pos hinit]
        simp only []
        by_cases hi23 : i = 0x2E2 ∨ i = 0x2E3
        · rw [if_pos hi23, if_pos ⟨hi23, hcov.1, hcov.2, hinit⟩]
        · rw [if_neg hi23, hram1 i hi1 hi2, if_neg (fun h => hi23 h.1)]
      · rw [if_neg hinit]
        simp only []
        rw [hram1 i hi1 hi2, if_neg (fun h => hinit h.2.2.2)]
    · simp only [xexLoadSegment]
      rw [if_neg hcov]
      simp only []
      rw [hram1 i hi1 hi2, if_neg (fun h => hcov ⟨h.2.1, h.2.2.1⟩)]
  · intro i hi
    have hout : ¬ (a ≤ i ∧ i ≤ b) := by omega
    by_cases hcov : a ≤ 0x2E2 ∧ 0x2E3 ≤ b
    · simp only [xexLoadSegment]
      rw [if_pos hcov, hram1 0x2E2 hcov.1 (by omega), hram1 0x2E3 (by omega) hcov.2]
      by_cases hinit : (d (0x2E2 - a) ||| (d (0x2E3 - a) <<< 8)) &&& 0xFFFF ≠ 0
      · rw [if_pos hinit]
        simp only []
        rw [if_neg (show ¬ (i = 0x2E2 ∨ i = 0x2E3) by omega), if_neg hout]
      · rw [if_neg hinit]
        simp only []
        rw [if_neg hout]
    · simp only [xexLoadSegment]
      rw [if_neg hcov]
      simp only []
      rw [if_neg hout]

/-- Witness for the amended C9: a two-byte segment at 0x4000. -/
theorem xexLoadSegment_frame_witness :
    ((0x4000 : Nat) ≤ 0x4001 ∧ ∀ j, (fun i => if i = 0 then 0xAA else 0xBB) j < 256) ∧
    ((∀ i, 0x4000 ≤ i → i ≤ 0x4001 →
      (xexLoadSegment (fun _ => 0) 0x4000 0x4001 (fun i => if i = 0 then 0xAA else 0xBB)).1 i =
        (if (i = 0x2E2 ∨ i = 0x2E3) ∧ 0x4000 ≤ 0x2E2 ∧ 0x2E3 ≤ 0x4001 ∧
            ((fun i => if i = 0 then 0xAA else 0xBB) (0x2E2 - 0x4000) |||
              ((fun i => if i = 0 then 0xAA else 0xBB) (0x2E3 - 0x4000) <<< 8)) &&& 0xFFFF ≠ 0
         then 0
         else (fun i => if i = 0 then 0xAA else 0xBB) (i - 0x4000))) ∧
    (∀ i, i < 0x4000 ∨ 0x4001 < i →
      (xexLoadSegment (fun _ => 0) 0x4000 0x4001 (fun i => if i = 0 then 0xAA else 0xBB)).1 i =
        (fun _ => (0 : Nat)) i)) :=
  ⟨⟨by decide, fun j => by by_cases h : j = 0 <;> simp [h]⟩,
   xexLoadSegment_frame (fun _ => 0) 0x4000 0x4001 (fun i => if i = 0 then 0xAA else 0xBB)
     (by decide) (fun j => by by_cases h : j = 0 <;> simp [h])⟩

/-! ### C3: NMI dispatch -/

/-- pushtostack as an explicit RAM update: the stack page 0x0100..0x01FF
lies below 0xA000, so the bus write always lands in RAM. -/
theorem pushtostack_eq (s : Sys) (v : Nat) :
    pushtostack s v = { s with
      ram := fun i => if i = 0x100 + (s.sp &&& 0xFF) then v &&& 0xFF else s.ram i,
      sp := (s.sp + 255) % 256 } := by
  unfold pushtostack setMem
  rw [if_pos (show 0x100 + (s.sp &&& 0xFF) < 0xA000 by
    have h := Nat.and_le_right (n := s.sp) (m := 0xFF)
    omega)]

/-- A bus read outside the hardware window does not change any state. -/
theorem getMem_pure (t : Sys) (b : Nat) (hb : ¬ (0xD000 ≤ b ∧ b < 0xD800)) :
    (getMem t b).2 = t := by
  unfold getMem
  by_cases h1 : b < 0xA000
  · rw [if_pos h1]
    by_cases h2 : t.selfTestEnabled ∧ 0x5000 ≤ b ∧ b < 0x5800
    · rw [if_pos h2]
    · rw [if_neg h2]
  · rw [if_neg h1]
    by_cases h2 : b < 0xC000
    · rw [if_pos h2]
      by_cases h3 : t.basicRomEnabled
      · rw [if_pos h3]
      · rw [if_neg h3]
    · rw [if_neg h2, if_neg hb]
      by_cases h3 : t.osRomEnabled
      · rw [if_pos h3]
        by_cases h4 : 0xC000 ≤ b ∧ b < 0xD000
        · rw [if_pos h4]
        · rw [if_neg h4]
          by_cases h5 : 0xD800 ≤ b
          · rw [if_pos h5]
          · rw [if_neg h5]
      · rw [if_neg h3]

theorem and65535_eq_mod (v : Nat) : v &&& 0xFFFF = v % 65536 :=
  Nat.and_pow_two_sub_one_eq_mod v 16

theorem getMem_val_FFFA (t : Sys) :
    (getMem t 0xFFFA).1 = if t.osRomEnabled then t.osRom 0x3FFA else t.ram 0xFFFA := by
  have h := getMem_osrom_high t 0xFFFA (by omega)
  simpa using h

theorem getMem_val_FFFB (t : Sys) :
    (getMem t 0xFFFB).1 = if t.osRomEnabled then t.osRom 0x3FFB else t.ram 0xFFFB := by
  have h := getMem_osrom_high t 0xFFFB (by omega)
  simpa using h

theorem getMem_pure_FFFA (t : Sys) : (getMem t 0xFFFA).2 = t :=
  getMem_pure t 0xFFFA (by omega)

theorem getMem_pure_FFFB (t : Sys) : (getMem t 0xFFFB).2 = t :=
  getMem_pure t 0xFFFB (by omega)

set_option maxRecDepth 8000 in
set_option maxHeartbeats 3200000 in
/-- Claim C3 as amended: dispatching an ANTIC NMI with the per-frame latch
clear pushes PC-high, PC-low and then the status byte - whose B bit equals
the CPU bflag member rather than being forced to zero, with the unused bit
0x20 always set (nmiStatusByte) - sets the latch and the I flag, loads PC
from the 16-bit vector at 0xFFFA/0xFFFB, charges exactly 7 cycles, and
touches no RAM byte outside the three pushed stack cells. -/
theorem handleNMI_dispatch (s : Sys) (lo hi : Nat)
    (hn : s.nmiActive = false) (hsp : s.sp < 256)
    (hos : s.osRomEnabled = true) (hlo : s.osRom 0x3FFA = lo) (hhi : s.osRom 0x3FFB = hi) :
    (handleNMI s).1 = true ∧
    (handleNMI s).2.nmiActive = true ∧
    (handleNMI s).2.ram (0x100 + s.sp) = (s.pc >>> 8) &&& 0xFF ∧
    (handleNMI s).2.ram (0x100 + (s.sp + 255) % 256) = s.pc &&& 0xFF ∧
    (handleNMI s).2.ram (0x100 + (s.sp + 254) % 256) = nmiStatusByte s &&& 0xFF ∧
    (handleNMI s).2.sp = (s.sp + 253) % 256 ∧
    (handleNMI s).2.iflag = true ∧
    (handleNMI s).2.pc = (lo ||| (hi <<< 8)) &&& 0xFFFF ∧
    (handleNMI s).2.numofcycles = s.numofcycles + 7 ∧
    (∀ b, b ≠ 0x100 + s.sp → b ≠ 0x100 + (s.sp + 255) % 256 →
      b ≠ 0x100 + (s.sp + 254) % 256 → (handleNMI s).2.ram b = s.ram b) := by
  refine ⟨?_, ?_, ?_, ?_, ?_, ?_, ?_, ?_, ?_, ?_⟩
  · simp only [handleNMI, hn]
    rfl
  · simp only [handleNMI, pushtostack_eq, hn, getMem_pure_FFFA, getMem_pure_FFFB,
      Bool.false_eq_true, if_false]
  · simp only [handleNMI, pushtostack_eq, hn, getMem_pure_FFFA, getMem_pure_FFFB,
      Bool.false_eq_true, if_false, and255_eq_mod]
    rw [if_neg (by omega), if_neg (by omega), if_pos (by omega)]
  · simp only [handleNMI, pushtostack_eq, hn, getMem_pure_FFFA, getMem_pure_FFFB,
      Bool.false_eq_true, if_false, and255_eq_mod]
    rw [if_neg (by omega), if_pos (by omega)]
    omega
  · simp only [handleNMI, pushtostack_eq, hn, getMem_pure_FFFA, getMem_pure_FFFB,
      Bool.false_eq_true, if_false, and255_eq_mod]
    rw [if_pos (by omega)]
    rfl
  · simp only [handleNMI, pushtostack_eq, hn, getMem_pure_FFFA, getMem_pure_FFFB,
      Bool.false_eq_true, if_false]
    omega
  · simp only [handleNMI, pushtostack_eq, hn, getMem_pure_FFFA, getMem_pure_FFFB,
      Bool.false_eq_true, if_false]
  · simp only [handleNMI, pushtostack_eq, hn, getMem_pure_FFFA, getMem_pure_FFFB,
      getMem_val_FFFA, getMem_val_FFFB, hos, Bool.false_eq_true, if_false, if_true,
      and65535_eq_mod]
    rw [hlo, hhi]
  · simp only [handleNMI, pushtostack_eq, hn, getMem_pure_FFFA, getMem_pure_FFFB,
      Bool.false_eq_true, if_false]
  · intro b hb1 hb2 hb3
    simp only [handleNMI, pushtostack_eq, hn, getMem_pure_FFFA, getMem_pure_FFFB,
      Bool.false_eq_true, if_false, and255_eq_mod]
    rw [if_neg (by omega), if_neg (by omega), if_neg (by omega)]

/-- Witness for the amended C3: from sysBase (vector bytes 0x40 0x50, SP =
0xFF, B flag clear) the dispatch performs the three pushes, sets I, lands
at PC = 0x5040 and charges 7 cycles. -/
theorem handleNMI_dispatch_witness :
    (sysBase.nmiActive = false ∧ sysBase.sp < 256 ∧ sysBase.osRomEnabled = true ∧
     sysBase.osRom 0x3FFA = 0x40 ∧ sysBase.osRom 0x3FFB = 0x50) ∧
    (handleNMI sysBase).2.pc = 0x5040 ∧
    (handleNMI sysBase).2.iflag = true ∧
    (handleNMI sysBase).2.numofcycles = sysBase.numofcycles + 7 ∧
    (handleNMI sysBase).2.ram 0x1FF = (sysBase.pc >>> 8) &&& 0xFF ∧
    (handleNMI sysBase).2.ram 0x1FE = sysBase.pc &&& 0xFF ∧
    (handleNMI sysBase).2.ram 0x1FD = nmiStatusByte sysBase &&& 0xFF := by
  have h := handleNMI_dispatch sysBase 0x40 0x50 rfl (by decide) rfl rfl rfl
  refine ⟨⟨rfl, by decide, rfl, rfl, rfl⟩, ?_, h.2.2.2.2.2.2.1, h.2.2.2.2.2.2.2.2.1,
    ?_, ?_, ?_⟩
  · rw [h.2.2.2.2.2.2.2.1]
    decide
  · exact h.2.2.1
  · exact h.2.2.2.1
  · exact h.2.2.2.2.1

/-- A concrete state whose B flag member is set (reachable in the source
through a PLP or RTI that pops a status byte with bit 4 set). -/
def sysC3 : Sys :=
  { sysBase with bflag := true, iflag := false }

/-- Counterexample for C3 as stated: with the B flag member set, the
status byte that handleNMI pushes (third push, at 0x01FD from SP = 0xFF)
is 0x30, whose B bit (0x10) is NOT zero; the claim demands B = 0 in every
NMI push. -/
theorem handleNMI_counterexample :
    sysC3.nmiActive = false ∧
    (handleNMI sysC3).2.ram 0x1FD = 0x30 ∧
    ¬ ((handleNMI sysC3).2.ram 0x1FD &&& 0x10 = 0) := by
  refine ⟨rfl, ?_, ?_⟩ <;> decide

/-! ### C10: the per-frame NMI latch -/

/-- handleNMI with the latch already set refuses and changes nothing. -/
theorem handleNMI_latched (t : Sys) (h : t.nmiActive = true) : handleNMI t = (false, t) := by
  unfold handleNMI
  rw [if_pos h]

/-- A bus write never changes the NMI latch. -/
theorem setMem_nmiActive (u : Sys) (a v : Nat) : (setMem u a v).nmiActive = u.nmiActive := by
  unfold setMem writeIOArea updateBanking
  repeat' split
  all_goals rfl

/-- A bus read never changes the NMI latch. -/
theorem getMem_nmiActive (u : Sys) (a : Nat) : ((getMem u a).2).nmiActive = u.nmiActive := by
  unfold getMem readIOArea
  repeat' split
  all_goals rfl

/-- A stack push never changes the NMI latch. -/
theorem pushtostack_nmiActive (u : Sys) (v : Nat) :
    (pushtostack u v).nmiActive = u.nmiActive := by
  unfold pushtostack
  rw [show ({ setMem u (0x100 + (u.sp &&& 0xFF)) v with
        sp := ((setMem u (0x100 + (u.sp &&& 0xFF)) v).sp + 255) % 256 } : Sys).nmiActive =
      (setMem u (0x100 + (u.sp &&& 0xFF)) v).nmiActive from rfl]
  exact setMem_nmiActive u _ v

/-- handleIRQ never changes the NMI latch. -/
theorem handleIRQ_nmiActive (u : Sys) : ((handleIRQ u).2).nmiActive = u.nmiActive := by
  unfold handleIRQ
  by_cases h : u.iflag
  · rw [if_pos h]
  · rw [if_neg h]
    simp only [getMem_nmiActive, pushtostack_nmiActive]

/-- checkInterrupts keeps the NMI latch set. -/
theorem checkInterrupts_nmiActive (t : Sys) (h : t.nmiActive = true) :
    (checkInterrupts t).nmiActive = true := by
  have hd : (anticNMIDispatch t).nmiActive = true := by
    unfold anticNMIDispatch
    by_cases hv : t.antic.vbiPending
    · unfold anticCheckVBI
      rw [if_pos hv]
      simp only [if_true]
      rw [handleNMI_latched _ (show (({ t with antic := { t.antic with vbiPending := false } })
        : Sys).nmiActive = true from h)]
      exact h
    · unfold anticCheckVBI
      rw [if_neg hv]
      simp only [if_false]
      by_cases hdli : t.antic.dliPending
      · unfold anticCheckDLI
        rw [if_pos hdli]
        simp only [if_true]
        rw [handleNMI_latched _ (show (({ t with antic := { t.antic with dliPending := false } })
          : Sys).nmiActive = true from h)]
        exact h
      · unfold anticCheckDLI
        rw [if_neg hdli]
        simp only [if_false]
        exact h
  unfold checkInterrupts
  by_cases hirq : ¬ (anticNMIDispatch t).iflag ∧ pokeyCheckIRQ (anticNMIDispatch t).pokey
  · rw [if_pos hirq, handleIRQ_nmiActive]
    exact hd
  · rw [if_neg hirq]
    exact hd

/-- The inner instruction loop keeps the NMI latch set whenever the
instruction interpreter does not touch it. -/
theorem cpuLoop_nmiActive (exec : Nat → Sys → Sys)
    (hexec : ∀ op u, (exec op u).nmiActive = u.nmiActive) :
    ∀ (fuel : Nat) (target : Int) (s : Sys), s.nmiActive = true →
      (cpuLoop exec fuel target s).nmiActive = true := by
  intro fuel
  induction fuel with
  | zero => intro target s h; exact h
  | succ fuel ih =>
    intro target s h
    unfold cpuLoop
    by_cases hlt : s.cyclesThisScanline < target
    · rw [if_pos hlt]
      by_cases hws : s.antic.wsyncHalt
      · rw [if_pos hws]
        exact h
      · rw [if_neg hws]
        apply ih
        apply checkInterrupts_nmiActive
        show (exec _ _).nmiActive = true
        rw [hexec]
        show ((getMem _ _).2).nmiActive = true
        rw [getMem_nmiActive]
        exact h
    · rw [if_neg hlt]
      exact h

/-- fetchDisplayListByte touches only the ANTIC sub-state. -/
theorem fetchDisplayListByte_nmiActive (t : Sys) :
    ((fetchDisplayListByte t).2).nmiActive = t.nmiActive := by
  unfold fetchDisplayListByte
  split
  · rfl
  · rfl

/-- processDisplayList touches only the ANTIC sub-state. -/
theorem processDisplayList_nmiActive (t : Sys) :
    (processDisplayList t).nmiActive = t.nmiActive := by
  simp only [processDisplayList, apply_ite Sys.nmiActive, fetchDisplayListByte_nmiActive,
    ite_self]

/-- drawScanline touches only the ANTIC sub-state. -/
theorem drawScanline_nmiActive (t : Sys) :
    (drawScanline t).nmiActive = t.nmiActive := by
  simp only [drawScanline, apply_ite Sys.nmiActive, processDisplayList_nmiActive, ite_self]

/-- A scanline iteration that does not land on scanline 0 keeps the NMI
latch set (it is cleared only at the frame boundary). -/
theorem scanlineIteration_latch (exec : Nat → Sys → Sys)
    (hexec : ∀ op u, (exec op u).nmiActive = u.nmiActive)
    (fuel : Nat) (s : Sys) (h : s.nmiActive = true)
    (hsl : (scanlineIteration exec fuel s).antic.scanline ≠ 0) :
    (scanlineIteration exec fuel s).nmiActive = true := by
  simp only [scanlineIteration] at hsl ⊢
  split at hsl
  case isTrue hc => exact absurd hc hsl
  case isFalse hc =>
    rw [if_neg hc]
    simp only [drawScanline_nmiActive]
    exact cpuLoop_nmiActive exec hexec fuel _ _ h

/-- Claim C10: once an ANTIC NMI has been dispatched in a frame
(nmiActive set), every further VBI or DLI check is a no-op on the CPU:
it pushes nothing, changes neither PC, SP, I nor the cycle counter, and a
DLI that is pending (with no VBI pending) is consumed without dispatch;
and a scanline iteration that does not cross the frame boundary leaves the
latch set, so at most one ANTIC NMI is delivered per frame. -/
theorem antic_nmi_once_per_frame :
    (∀ s : Sys, s.nmiActive = true →
      (anticNMIDispatch s).pc = s.pc ∧
      (anticNMIDispatch s).sp = s.sp ∧
      (anticNMIDispatch s).ram = s.ram ∧
      (anticNMIDispatch s).numofcycles = s.numofcycles ∧
      (anticNMIDispatch s).iflag = s.iflag ∧
      (anticNMIDispatch s).nmiActive = true ∧
      (s.antic.vbiPending = false → (anticNMIDispatch s).antic.dliPending = false)) ∧
    (∀ (exec : Nat → Sys → Sys) (fuel : Nat) (s : Sys),
      (∀ op u, (exec op u).nmiActive = u.nmiActive) → s.nmiActive = true →
      (scanlineIteration exec fuel s).antic.scanline ≠ 0 →
      (scanlineIteration exec fuel s).nmiActive = true) := by
  constructor
  · intro s h
    by_cases hv : s.antic.vbiPending
    · have hstep : anticNMIDispatch s = { s with antic := { s.antic with vbiPending := false } } := by
        unfold anticNMIDispatch anticCheckVBI
        rw [if_pos hv]
        simp only [if_true]
        rw [handleNMI_latched _ (show (({ s with antic := { s.antic with vbiPending := false } })
          : Sys).nmiActive = true from h)]
      rw [hstep]
      exact ⟨rfl, rfl, rfl, rfl, rfl, h, fun hvf => absurd hv (by rw [hvf]; exact Bool.false_ne_true)⟩
    · by_cases hdli : s.antic.dliPending
      · have hstep : anticNMIDispatch s =
            { s with antic := { s.antic with dliPending := false } } := by
          unfold anticNMIDispatch anticCheckVBI
          rw [if_neg hv]
          simp only [if_false]
          unfold anticCheckDLI
          rw [if_pos hdli]
          simp only [if_true]
          rw [handleNMI_latched _ (show (({ s with antic := { s.antic with dliPending := false } })
            : Sys).nmiActive = true from h)]
          rfl
        rw [hstep]
        exact ⟨rfl, rfl, rfl, rfl, rfl, h, fun _ => rfl⟩
      · have hstep : anticNMIDispatch s = s := by
          unfold anticNMIDispatch anticCheckVBI
          rw [if_neg hv]
          simp only [if_false]
          unfold anticCheckDLI
          rw [if_neg hdli]
          rfl
        rw [hstep]
        refine ⟨rfl, rfl, rfl, rfl, rfl, h, fun _ => ?_⟩
        rw [Bool.not_eq_true] at hdli
        exact hdli
  · intro exec fuel s hexec h hsl
    exact scanlineIteration_latch exec hexec fuel s h hsl

/-- A state with the NMI latch set and a DLI pending (no VBI pending). -/
def sysC10 : Sys :=
  { sysBase with nmiActive := true, antic := { sysBase.antic with dliPending := true } }

/-- Witness for C10 at a concrete latched state: the dispatch is a CPU
no-op that consumes the pending DLI, and a non-frame-boundary scanline
iteration keeps the latch. -/
theorem antic_nmi_once_per_frame_witness :
    sysC10.nmiActive = true ∧
    (anticNMIDispatch sysC10).pc = 0x1234 ∧
    (anticNMIDispatch sysC10).antic.dliPending = false ∧
    (scanlineIteration execNop2 1 sysC10).antic.scanline ≠ 0 ∧
    (scanlineIteration execNop2 1 sysC10).nmiActive = true := by
  refine ⟨rfl, (antic_nmi_once_per_frame.1 sysC10 rfl).1,
    (antic_nmi_once_per_frame.1 sysC10 rfl).2.2.2.2.2.2 rfl,
    by decide,
    antic_nmi_once_per_frame.2 execNop2 1 sysC10 (fun op u => rfl) rfl (by decide)⟩

/-! ### C2: the per-scanline cycle tally of the run loop -/

/-- A bus read never changes the scanline cycle tally. -/
theorem getMem_cycles (u : Sys) (a : Nat) :
    ((getMem u a).2).cyclesThisScanline = u.cyclesThisScanline := by
  unfold getMem readIOArea
  repeat' split
  all_goals rfl

/-- A bus read never changes the instruction cycle counter. -/
theorem getMem_numofcycles (u : Sys) (a : Nat) :
    ((getMem u a).2).numofcycles = u.numofcycles := by
  unfold getMem readIOArea
  repeat' split
  all_goals rfl

/-- A bus write never changes the scanline cycle tally. -/
theorem setMem_cycles (u : Sys) (a v : Nat) :
    (setMem u a v).cyclesThisScanline = u.cyclesThisScanline := by
  unfold setMem writeIOArea updateBanking
  repeat' split
  all_goals rfl

/-- A stack push never changes the scanline cycle tally. -/
theorem pushtostack_cycles (u : Sys) (v : Nat) :
    (pushtostack u v).cyclesThisScanline = u.cyclesThisScanline := by
  unfold pushtostack
  exact setMem_cycles u _ v

/-- handleNMI never changes the scanline cycle tally. -/
theorem handleNMI_cycles (u : Sys) :
    ((handleNMI u).2).cyclesThisScanline = u.cyclesThisScanline := by
  unfold handleNMI
  by_cases h : u.nmiActive
  · rw [if_pos h]
  · rw [if_neg h]
    simp only [getMem_cycles, pushtostack_cycles]

/-- handleIRQ never changes the scanline cycle tally. -/
theorem handleIRQ_cycles (u : Sys) :
    ((handleIRQ u).2).cyclesThisScanline = u.cyclesThisScanline := by
  unfold handleIRQ
  by_cases h : u.iflag
  · rw [if_pos h]
  · rw [if_neg h]
    simp only [getMem_cycles, pushtostack_cycles]

/-- The ANTIC NMI dispatch never changes the scanline cycle tally. -/
theorem anticNMIDispatch_cycles (t : Sys) :
    (anticNMIDispatch t).cyclesThisScanline = t.cyclesThisScanline := by
  unfold anticNMIDispatch
  by_cases hv : t.antic.vbiPending
  · unfold anticCheckVBI
    rw [if_pos hv]
    simp only [if_true, handleNMI_cycles]
  · unfold anticCheckVBI
    rw [if_neg hv]
    simp only [Bool.false_eq_true, if_false]
    by_cases hd : t.antic.dliPending
    · unfold anticCheckDLI
      rw [if_pos hd]
      simp only [if_true, handleNMI_cycles]
    · unfold anticCheckDLI
      rw [if_neg hd]
      simp only [Bool.false_eq_true, if_false]

/-- checkInterrupts never changes the scanline cycle tally. -/
theorem checkInterrupts_cycles (t : Sys) :
    (checkInterrupts t).cyclesThisScanline = t.cyclesThisScanline := by
  unfold checkInterrupts
  by_cases h : ¬ (anticNMIDispatch t).iflag ∧ pokeyCheckIRQ (anticNMIDispatch t).pokey
  · rw [if_pos h, handleIRQ_cycles, anticNMIDispatch_cycles]
  · rw [if_neg h, anticNMIDispatch_cycles]

/-- A display-list fetch never changes the scanline cycle tally. -/
theorem fetchDisplayListByte_cycles (t : Sys) :
    ((fetchDisplayListByte t).2).cyclesThisScanline = t.cyclesThisScanline := by
  unfold fetchDisplayListByte
  split
  · rfl
  · rfl

/-- processDisplayList never changes the scanline cycle tally. -/
theorem processDisplayList_cycles (t : Sys) :
    (processDisplayList t).cyclesThisScanline = t.cyclesThisScanline := by
  simp only [processDisplayList, apply_ite Sys.cyclesThisScanline,
    fetchDisplayListByte_cycles, ite_self]

/-- drawScanline never changes the scanline cycle tally. -/
theorem drawScanline_cycles (t : Sys) :
    (drawScanline t).cyclesThisScanline = t.cyclesThisScanline := by
  simp only [drawScanline, apply_ite Sys.cyclesThisScanline, processDisplayList_cycles,
    ite_self]

/-- Bound on the tally produced by the inner instruction loop: while the
loop continues the tally is under the target, so one more instruction of at
most 7 cycles can push it to at most 113 + 7 = 120. -/
theorem cpuLoop_bound (exec : Nat → Sys → Sys)
    (hexec : ∀ op u, u.numofcycles = 0 →
      (exec op u).cyclesThisScanline = u.cyclesThisScanline ∧
      0 ≤ (exec op u).numofcycles ∧ (exec op u).numofcycles ≤ 7) :
    ∀ (fuel : Nat) (target : Int) (s : Sys), target ≤ 114 →
      s.cyclesThisScanline ≤ 120 →
      (cpuLoop exec fuel target s).cyclesThisScanline ≤ 120 := by
  intro fuel
  induction fuel with
  | zero => intro target s _ hb; exact hb
  | succ fuel ih =>
    intro target s ht hb
    unfold cpuLoop
    by_cases hlt : s.cyclesThisScanline < target
    · rw [if_pos hlt]
      by_cases hws : s.antic.wsyncHalt
      · rw [if_pos hws]
        show target ≤ 120
        omega
      · rw [if_neg hws]
        refine ih _ _ ht ?_
        rw [checkInterrupts_cycles]
        generalize hg : getMem { s with numofcycles := 0 }
          ({ s with numofcycles := 0 } : Sys).pc = g
        have h0 : g.2.numofcycles = 0 := by
          rw [← hg, getMem_numofcycles]
        have hgc : g.2.cyclesThisScanline = s.cyclesThisScanline := by
          rw [← hg, getMem_cycles]
        obtain ⟨hc, hle, h7⟩ := hexec g.1 { g.2 with pc := (g.2.pc + 1) % 65536 } h0
        show (exec g.1 { g.2 with pc := (g.2.pc + 1) % 65536 }).cyclesThisScanline +
          (exec g.1 { g.2 with pc := (g.2.pc + 1) % 65536 }).numofcycles ≤ 120
        have hc2 : (exec g.1 { g.2 with pc := (g.2.pc + 1) % 65536 }).cyclesThisScanline =
            s.cyclesThisScanline := hc.trans hgc
        rw [hc2]
        omega
    · rw [if_neg hlt]
      exact hb

/-- Claim C2 (amended): after a scanline iteration the tally satisfies
cyclesThisScanline less-or-equal 120, not 114 as claimed: the loop
condition admits entry at 113 cycles and the final instruction may add up
to 7 more, so the boundary value can exceed 114 (see the counterexample at
119). The bound assumes the standard PAL budget cyclesPerScanline = 114
and an instruction interpreter that charges 0..7 cycles per instruction
and does not touch the tally itself. -/
theorem scanline_cycle_bound (exec : Nat → Sys → Sys)
    (hexec : ∀ op u, u.numofcycles = 0 →
      (exec op u).cyclesThisScanline = u.cyclesThisScanline ∧
      0 ≤ (exec op u).numofcycles ∧ (exec op u).numofcycles ≤ 7)
    (fuel : Nat) (s : Sys) (h114 : s.cyclesPerScanline = 114) :
    (scanlineIteration exec fuel s).cyclesThisScanline ≤ 120 := by
  have htar : scanlineBudget { s with cyclesThisScanline := 0 } ≤ 114 := by
    show s.cyclesPerScanline - Int.ofNat s.antic.dmaCycles ≤ 114
    rw [h114]
    exact sub_le_self 114 (Int.ofNat_nonneg _)
  have hcpu := cpuLoop_bound exec hexec fuel
    (scanlineBudget { s with cyclesThisScanline := 0 })
    { s with cyclesThisScanline := 0 } htar (by show (0:Int) <= 120; decide)
  simp only [scanlineIteration, apply_ite Sys.cyclesThisScanline, ite_self,
    drawScanline_cycles]
  exact hcpu

/-- Witness for the amended C2 bound: a full scanline of 2-cycle NOPs from
the base state stays within 120 cycles. -/
theorem scanline_cycle_bound_witness :
    sysBase.cyclesPerScanline = 114 ∧
    (scanlineIteration execNop2 60 sysBase).cyclesThisScanline ≤ 120 :=
  ⟨rfl, scanline_cycle_bound execNop2
    (fun _ _ _ => ⟨rfl, (by decide : (0:Int) ≤ 2), (by decide : (2:Int) ≤ 7)⟩)
    60 sysBase rfl⟩

/-- A state poised on scanline 250 (no drawing, small audio refill) whose
RAM is all zeros: every opcode fetched is 0x00, i.e. BRK, and the BRK
vector in RAM is 0x0000 with the OS ROM banked out. -/
def sysC2 : Sys :=
  { sysBase with osRomEnabled := false,
                 antic := { anticReset false with scanline := 250 },
                 pokey := { pokeyReset with actSampleIdx := 706 } }

/-- Counterexample to C2 as stated: a scanline filled with 7-cycle BRK
instructions ends the iteration with a tally of 119 cycles, violating the
claimed invariant cyclesThisScanline less-or-equal 114 (16 BRKs reach 112,
the loop admits one more, and it ends at 119). -/
theorem scanline_cycle_counterexample :
    (scanlineIteration execBRKNop 40 sysC2).cyclesThisScanline = 119 ∧
    ¬ (scanlineIteration execBRKNop 40 sysC2).cyclesThisScanline ≤ 114 := by
  constructor <;> decide

/-! ### C1: the per-scanline budget and the DMA tally -/

/-- ANTIC::nextScanline always leaves the DMA tally at zero. -/
theorem anticNextScanline_dma (a : ANTICState) :
    (anticNextScanline a).dmaCycles = 0 := by
  simp only [anticNextScanline, apply_ite ANTICState.dmaCycles, ite_self]

/-- A state about to draw scanline 8 with display-list DMA enabled
(DMACTL = 0x22), a one-byte display list holding the mode-2 instruction
0x02 at 0x0600, and WSYNC halting the CPU so the iteration spends no
instruction cycles. -/
def sysC1 : Sys :=
  { sysBase with
      antic := { anticReset false with
                   scanline := 8, dmactl := 0x22, inDisplayList := true,
                   displayListPC := 0x0600, wsyncHalt := true },
      ram := fun i => if i = 0x600 then 0x02 else 0,
      pokey := { pokeyReset with actSampleIdx := 22 } }

/-- Claim C1 (code bug): the budget that the run loop computes is
cyclesPerScanline minus the DMA tally (definition scanlineBudget), but
nextScanline zeroes the tally at the end of every iteration, after the
display-list fetches of drawScanline have charged it and before the next
iteration reads it. Hence every iteration leaves the tally at zero and the
next budget is always the full 114, never 114 minus the charged DMA
cycles: concretely, drawing scanline 8 of sysC1 charges 1 DMA cycle for
the display-list fetch, yet the following budget is 114, not 113. -/
theorem budget_ignores_dma :
    (∀ (exec : Nat → Sys → Sys) (fuel : Nat) (s : Sys),
      (scanlineIteration exec fuel s).antic.dmaCycles = 0) ∧
    (drawScanline { sysC1 with
        cyclesThisScanline := 114,
        antic := { sysC1.antic with wsyncHalt := false } }).antic.dmaCycles = 1 ∧
    scanlineBudget (scanlineIteration execNop2 10 sysC1) = 114 ∧
    ¬ scanlineBudget (scanlineIteration execNop2 10 sysC1) = 113 := by
  refine ⟨fun exec fuel s => ?_, ?_, ?_, ?_⟩
  · simp only [scanlineIteration, apply_ite (fun t : Sys => t.antic.dmaCycles),
      ite_self, anticNextScanline_dma]
  · decide
  · decide
  · decide

/-- A state whose PIA has DDRB fully output and PBCTL selecting the output
register, so that a port B write lands in PORTB directly. -/
def sysC4 : Sys :=
  { sysBase with pia := { piaReset with ddrb := 0xFF, pbctl := 0x04 } }

/-- Witness for C4 at concrete states: writing 0xFE to 0xD301 (bit 0
clear) maps the vector read at 0xFFFC to the OS ROM, and writing 0xFF
(bit 0 set) maps it to RAM. -/
theorem pia_portb_banking_witness :
    (getMem (writeIOArea sysC4 0xD301 0xFE) 0xFFFC).1 = sysC4.osRom 0x3FFC ∧
    (getMem (writeIOArea sysC4 0xD301 0xFF) 0xFFFC).1 = sysC4.ram 0xFFFC := by
  constructor
  · have h := (pia_portb_banking sysC4 0xD301 0xFE (by decide) (by decide)
      (by decide)).2.2.2.2.2
    rw [h]
    decide
  · have h := (pia_portb_banking sysC4 0xD301 0xFF (by decide) (by decide)
      (by decide)).2.2.2.2.2
    rw [h]
    decide
